import Mathlib

/-!
Shallow embedding of src/pylogger_class/pylogger_class.py (class RollingEventLogger
and class error_popup) and proofs about its failover state machine.

Modelling notes.
* The logging session is a record LoggerState; Python attribute mutation becomes
  explicit state passing.
* External effects are driven by an oracle Env: the per-call file probe
  (open(path, "a")), the RotatingFileHandler constructor (together with
  os.makedirs in the constructor) and the underlying handler detach operation each
  consume one outcome from the oracle, indexed by a counter in the state.  The
  detach oracle models the condition the spec calls a simulated handler removal
  failure; CPython Logger.removeHandler itself never raises, so ordinary runs use
  an all-success detach oracle.
* Python exceptions become the Outcome type: ok, a propagating exception (exn) or
  process termination via sys.exit (sysExit; sys.exit with a string argument is a
  failure status, exit code 1).
* Emitted meta-log records (logger.log / logger.debug and friends) and OS
  event-log records (win32evtlogutil.ReportEvent) are accumulated in the state so
  that counting and content claims can be stated.  Each meta record keeps the
  snapshot of the attached handlers at emission time; per-handler severity
  filtering and formatting are the logging library concern and are out of scope in
  the spec.
* The NTEventLogHandler constructor is modelled as always succeeding: the spec
  (sections 4.4 and 7) leaves EventLogUnavailable without a defined policy and no
  claim depends on it.
-/

set_option maxRecDepth 100000

namespace Pylogger

/-- Kind of an attached handler: logging.handlers.RotatingFileHandler,
logging.handlers.NTEventLogHandler, or logging.StreamHandler (the console
mirror). -/
inductive HandlerKind
  | RFH
  | EVT
  | STR
deriving DecidableEq, Repr, Inhabited

/-- A handler object attached to the logger.  id models Python object identity
(Logger.removeHandler removes by identity); name is set by _configure_handler;
level by _select_logging_level. -/
structure Handler where
  id : Nat
  name : String
  kind : HandlerKind
  level : Nat
deriving DecidableEq, Repr, Inhabited

/-- A record dispatched through the logging library (logger.log(level, msg) or a
level method such as logger.warning(msg)).  atEmit is the snapshot of
logger.handlers at the moment the record was handled; which sinks actually
persist it follows from that snapshot (per-handler level filtering is the
library concern, out of scope in the spec). -/
structure MetaRecord where
  level : Nat
  msg : String
  atEmit : List Handler
deriving DecidableEq, Repr, Inhabited

/-- A record submitted to the Windows event log via output_evtlog, with the six
arguments in the order of the output_evtlog signature:
(applicationNameIn, eventIDIn, categoryIn, myTypeIn, descrIn, dataIn).
ReportEvent receives eventID := eventIDIn and eventType := myTypeIn. -/
structure EvtRecord where
  applicationName : String
  eventID : Nat
  category : Nat
  eventType : Nat
  strings : List String
  data : String
deriving DecidableEq, Repr, Inhabited

/-- win32evtlog severity constants. -/
def EVENTLOG_ERROR_TYPE : Nat := 1

def EVENTLOG_WARNING_TYPE : Nat := 2

def EVENTLOG_INFORMATION_TYPE : Nat := 4

/-- Python exception classes that the modelled code can raise or catch. -/
inductive PyError
  | attributeError (what : String)
  | keyError (what : String)
  | typeError (what : String)
deriving DecidableEq, Repr

/-- Result of running a piece of the Python code: normal return, a propagating
exception, or process termination through sys.exit (string argument: failure
exit status 1). -/
inductive Outcome (A : Type)
  | ok (a : A)
  | exn (e : PyError)
  | sysExit (msg : String)
deriving DecidableEq, Repr

/-- True exactly on the sys.exit outcome. -/
def Outcome.isExit {A : Type} : Outcome A → Bool
  | .sysExit _ => true
  | _ => false

/-- Oracle for the external world, indexed by per-operation counters kept in the
state: probe n is the outcome of the n-th open(path, "a") in _check_file_access
(error = the OSError text str(e)); rfhCtor n the outcome of the n-th
RotatingFileHandler construction (in __init__ together with os.makedirs);
detach n the outcome of the n-th underlying handler detach. -/
structure Env where
  probe : Nat → Except String Unit
  rfhCtor : Nat → Except String Unit
  detach : Nat → Except String Unit

/-- The state of a RollingEventLogger session. -/
structure LoggerState where
  log_file_path : String
  handler_base_name : String
  logging_level : String
  log_file_path_and_file_handler_filename : String
  event_source : String
  is_logging_to_eventlog : Bool
  handlers : List Handler
  file_handler : Option Handler
  event_handler : Option Handler
  handler_removed : Option String
  nextId : Nat
  probeCount : Nat
  rfhCount : Nat
  detachCount : Nat
  metaLog : List MetaRecord
  evtLog : List EvtRecord
  popups : List (String × String)
deriving DecidableEq, Repr, Inhabited

/-- Dispatch of one record through the attached handlers (the effect of
logger.log(level, msg) and of the bound level methods). -/
def emitMeta (s : LoggerState) (level : Nat) (msg : String) : LoggerState :=
  { s with metaLog := s.metaLog ++ [⟨level, msg, s.handlers⟩] }

/-- output_evtlog (src 389-417): resolves the current process SID and calls
win32evtlogutil.ReportEvent(applicationName, eventID, eventCategory := category,
eventType := myType, strings := descr, data := data, sid := sid).  The argument
order is that of the Python signature; note that every call site in the class
passes a win32evtlog EVENTLOG_*_TYPE constant as the second positional argument,
which is eventIDIn, while myTypeIn (the severity submitted to Windows) receives
the literal 0. -/
def output_evtlog (s : LoggerState) (applicationNameIn : String)
    (eventIDIn categoryIn myTypeIn : Nat) (descrIn : List String)
    (dataIn : String) : LoggerState :=
  { s with evtLog := s.evtLog ++ [⟨applicationNameIn, eventIDIn, categoryIn, myTypeIn, descrIn, dataIn⟩] }

/-- logging.Logger.addHandler: appends the handler unless the same object is
already attached. -/
def addHandler (s : LoggerState) (h : Handler) : LoggerState :=
  if s.handlers.any (fun x => x.id == h.id) then s
  else { s with handlers := s.handlers ++ [h] }

/-- str.lower(), applied characterwise (the selectors in play are ASCII). -/
def pyLower (s : String) : String := String.mk (s.data.map Char.toLower)

/-- The select_log_lev dictionary of _select_logging_level (src 157-163); none
models the KeyError raised on any other key. -/
def select_log_lev (log_level : String) : Option Nat :=
  if log_level = "d" then some 10
  else if log_level = "i" then some 20
  else if log_level = "w" then some 30
  else if log_level = "e" then some 40
  else if log_level = "c" then some 50
  else none

/-- _configure_handler (src 129-143): lowercases the level selector, names the
handler when a name is given, sets the formatter (uniform, not tracked), sets
the level via _select_logging_level (KeyError when the selector is not one of
d/i/w/e/c) and attaches the handler.  The Python mutates the handler object in
place; here the configured handler is returned so the caller can refresh the
attribute (file_handler / event_handler) aliasing the same object. -/
def configure_handler (s : LoggerState) (h : Handler) (log_level : String)
    (handler_name : String) : Outcome Handler × LoggerState :=
  let log_level_lcase := pyLower log_level
  let h1 := if handler_name ≠ "" then { h with name := handler_name } else h
  match select_log_lev log_level_lcase with
  | none => (.exn (.keyError log_level_lcase), s)
  | some lvl =>
      let h2 := { h1 with level := lvl }
      (.ok h2, addHandler s h2)

/-- Abstraction of the Python str(handler) rendering stored into
self.handler_removed; the exact text is never inspected by the code. -/
def handlerStr (h : Handler) : String := h.name

/-- Result values returned by _check_for_and_remove_handler_of_specified_type. -/
inductive RemoveResult
  | removal_success
  | removal_failed
  | no_handlers_found
deriving DecidableEq, Repr

/-- logging.Logger.removeHandler on a handler object, with the detach oracle
deciding whether the underlying detach raises (the simulated removal failure of
the spec); on success the handler is removed by identity. -/
def removeHandler (env : Env) (s : LoggerState) (h : Handler) :
    Except String Unit × LoggerState :=
  let r := env.detach s.detachCount
  let s1 := { s with detachCount := s.detachCount + 1 }
  match r with
  | .error e => (.error e, s1)
  | .ok _ => (.ok (), { s1 with handlers := s1.handlers.eraseP (fun x => x.id == h.id) })

/-- The except-block of _check_for_and_remove_handler_of_specified_type
(src 198-214): formats an ERROR (40) meta record using self.handler_removed
(an AttributeError propagates out of the method when that attribute was never
set, i.e. no removal ever succeeded before), reports an event-log record and
returns removal_failed. -/
def remove_handler_except_block (s : LoggerState)
    (handler_name handler_type e : String) : Outcome RemoveResult × LoggerState :=
  match s.handler_removed with
  | none => (.exn (.attributeError "handler_removed"), s)
  | some hr =>
      let s1 := emitMeta s 40
        ("Error removing " ++ hr ++ ", named " ++ handler_name ++ ", of type "
          ++ handler_type ++ "!\nThe following error was recorded: " ++ e)
      let s2 := output_evtlog s1 s1.event_source EVENTLOG_ERROR_TYPE 0 0
        ["Failed to remove " ++ hr ++ " handler named " ++ handler_name ++ " from logger.",
         "Check script configuration",
         "Thefollowing error was recorded: " ++ e]
        "Failed\x00to\x00remove\x00handler\x00from\x00logger\x00Check\x00script\x00config."
      (.ok .removal_failed, s2)

/-- The for-loop of _check_for_and_remove_handler_of_specified_type
(src 184-217) over logger.handlers.  A RotatingFileHandler whose name matches
triggers removal of self.file_handler, an NTEventLogHandler whose name matches
triggers removal of self.event_handler (accessing an unset attribute raises
AttributeError inside the try, reaching the except-block); any exception in the
try is handled by remove_handler_except_block.  Falling off the loop yields
no_handlers_found after a DEBUG (10) diagnostic record. -/
def remove_handler_loop (env : Env) (handler_name handler_type : String) :
    List Handler → LoggerState → Outcome RemoveResult × LoggerState
  | [], s =>
      (.ok .no_handlers_found, emitMeta s 10 "No handlers found at time of switching logs")
  | h :: rest, s =>
      if h.kind = HandlerKind.RFH ∧ h.name = handler_name then
        match s.file_handler with
        | none => remove_handler_except_block s handler_name handler_type
            "AttributeError: file_handler"
        | some fh =>
            match removeHandler env s fh with
            | (.error e, s1) => remove_handler_except_block s1 handler_name handler_type e
            | (.ok _, s1) =>
                let s2 := emitMeta s1 10
                  "Successful removal of Rotating File Handler between switching logging methods"
                let s3 := { s2 with handler_removed := some (handlerStr fh) }
                (.ok .removal_success, s3)
      else if h.kind = HandlerKind.EVT ∧ h.name = handler_name then
        match s.event_handler with
        | none => remove_handler_except_block s handler_name handler_type
            "AttributeError: event_handler"
        | some eh =>
            match removeHandler env s eh with
            | (.error e, s1) => remove_handler_except_block s1 handler_name handler_type e
            | (.ok _, s1) =>
                let s2 := emitMeta s1 10
                  "Successful removal of Windows Event Log Handler between switching logging methods"
                let s3 := { s2 with handler_removed := some (handlerStr eh) }
                (.ok .removal_success, s3)
      else remove_handler_loop env handler_name handler_type rest s

/-- _check_for_and_remove_handler_of_specified_type (src 167-217). -/
def check_for_and_remove_handler_of_specified_type (env : Env) (s : LoggerState)
    (handler_name handler_type : String) : Outcome RemoveResult × LoggerState :=
  remove_handler_loop env handler_name handler_type s.handlers s

/-- The message string of src line 269: a plain (non-f) Python string literal, so
the two brace-delimited placeholders are literal text, not interpolations. -/
def switch_meta_message : String :=
  "Failed to access rolling log file. Switching to Windows Event logging.\nCheck access and permissions are available to script operating functional user at: \x7bself.log_file_path_and_file_handler_filename\x7d\nThefollowing error was recorded: \x7berror_data\x7d"

/-- The message shown by the fatal error_popup (src 290, 370):
os.path.basename(__file__) interpolated with the module file name. -/
def fatal_popup_message : String :=
  "pylogger_class.py suffered an unrecoverable error while logging activiy. Check Windows event log for details. Closing script"

/-- The case _ arm shared (textually) by both switch methods (src 283-293 and
363-373): one blocking error_popup (title, message, style 0, i.e. an OK-only
modal box via MessageBoxW), then sys.exit whose message interpolates the name of
the handler attribute relevant to the method (an AttributeError propagates when
that attribute was never set). -/
def fatal_escalation (s1 : LoggerState) (handlerAttr : Option Handler) :
    Outcome Unit × LoggerState :=
  let s2 := { s1 with popups := s1.popups ++ [("File copy logging failure", fatal_popup_message)] }
  match handlerAttr with
  | none => (.exn (.attributeError "handler"), s2)
  | some h => (.sysExit ("Failed to clear " ++ h.name ++ " post failure to log"), s2)

/-- The no_handlers_found | removal_success arm of _switch_to_eventlog
(src 256-282): construct NTEventLogHandler(event_source, logtype
:= Application), configure and attach it under the name base_EVT, set the
backend flag, log the switch meta record at WARNING (30) with the literal
(non-f-string) message of src 269, and report the switch event-log record
with the interpolated path and error text in its description strings. -/
def attach_event_handler (s1 : LoggerState) (error_data : String) :
    Outcome Unit × LoggerState :=
  let eh : Handler := ⟨s1.nextId, "", HandlerKind.EVT, 0⟩
  let s2 := { s1 with nextId := s1.nextId + 1, event_handler := some eh }
  match configure_handler s2 eh s2.logging_level (s2.handler_base_name ++ "_EVT") with
  | (.exn e, s3) => (.exn e, s3)
  | (.sysExit m, s3) => (.sysExit m, s3)
  | (.ok eh2, s3) =>
      let s4 := { s3 with event_handler := some eh2 }
      let s5 := { s4 with is_logging_to_eventlog := true }
      let s6 := emitMeta s5 30 switch_meta_message
      let s7 := output_evtlog s6 s6.event_source EVENTLOG_ERROR_TYPE 0 0
        ["Failed to access rolling log file. Switching to Windows event logging.",
         "Check access and permissions are available to script operating functional user at: "
           ++ s6.log_file_path_and_file_handler_filename,
         "Thefollowing error was recorded: " ++ error_data]
        "Failed\x00to\x00access\x00rolling\x00log\x00file.\x00Logging\x00to\x00event\x00log\x00instead."
      (.ok (), s7)

/-- _switch_to_eventlog (src 235-293).  No-op when already logging to the event
log; otherwise removes the rotating file handler (an AttributeError escaping the
removal method is mapped to no_handlers_found, src 251-252), then dispatches on
the removal status: attach_event_handler on no_handlers_found or
removal_success, fatal_escalation on removal_failed. -/
def switch_to_eventlog (env : Env) (s : LoggerState) (error_data : String) :
    Outcome Unit × LoggerState :=
  if s.is_logging_to_eventlog then (.ok (), s)
  else
    let step1 := check_for_and_remove_handler_of_specified_type env s
      (s.handler_base_name ++ "_RFH") "rfh"
    let s1 := step1.2
    let handler_remove_state : Outcome RemoveResult :=
      match step1.1 with
      | .exn (.attributeError _) => .ok .no_handlers_found
      | other => other
    match handler_remove_state with
    | .exn e => (.exn e, s1)
    | .sysExit m => (.sysExit m, s1)
    | .ok .no_handlers_found | .ok .removal_success => attach_event_handler s1 error_data
    | .ok .removal_failed => fatal_escalation s1 s1.file_handler

/-- The no_handlers_found | removal_success arm of _switch_to_file
(src 316-362): attempt to reconstruct the RotatingFileHandler; on constructor
failure re-enter _switch_to_eventlog with the new error text (the backend flag
is still true at that point); on success report the resumption event-log record
first (src 335-345, EVENTLOG_INFORMATION_TYPE passed in the eventID position,
myType 0), then configure and attach the file handler under base_RFH, clear the
backend flag and log the resumption meta record at WARNING (30). -/
def reattach_file_handler (env : Env) (s1 : LoggerState) : Outcome Unit × LoggerState :=
  let ctor := env.rfhCtor s1.rfhCount
  let s2 := { s1 with rfhCount := s1.rfhCount + 1 }
  match ctor with
  | .error e =>
      switch_to_eventlog env s2
        ("A failed attempt was recorded when re-enabling rotating log file logging.\nIntermittent folder access may be available to "
          ++ s2.log_file_path_and_file_handler_filename ++ ".\nFailed to create log file: " ++ e)
  | .ok _ =>
      let fh : Handler := ⟨s2.nextId, "", HandlerKind.RFH, 0⟩
      let s3 := { s2 with nextId := s2.nextId + 1, file_handler := some fh }
      let s4 := output_evtlog s3 s3.event_source EVENTLOG_INFORMATION_TYPE 0 0
        ["Resuming logging to rolling log file.",
         "Check " ++ s3.log_file_path_and_file_handler_filename ++ " for further log data."]
        "Resuming\x00logging\x00to\x00rolling\x00log\x00file."
      match configure_handler s4 fh s4.logging_level (s4.handler_base_name ++ "_RFH") with
      | (.exn e, s5) => (.exn e, s5)
      | (.sysExit m, s5) => (.sysExit m, s5)
      | (.ok fh2, s5) =>
          let s6 := { s5 with file_handler := some fh2 }
          let s7 := { s6 with is_logging_to_eventlog := false }
          let s8 := emitMeta s7 30
            ("Resuming logging to rolling log file.\nCheck "
              ++ s7.log_file_path_and_file_handler_filename ++ " for further log data.")
          (.ok (), s8)

/-- _switch_to_file (src 295-373).  No-op when not logging to the event log;
otherwise removes the event-log handler (an AttributeError escaping the removal
method is mapped to no_handlers_found, src 310-311), then dispatches on the
removal status: reattach_file_handler on no_handlers_found or removal_success,
fatal_escalation on removal_failed. -/
def switch_to_file (env : Env) (s : LoggerState) : Outcome Unit × LoggerState :=
  if s.is_logging_to_eventlog = false then (.ok (), s)
  else
    let step1 := check_for_and_remove_handler_of_specified_type env s
      (s.handler_base_name ++ "_EVT") "evt"
    let s1 := step1.2
    let handler_remove_state : Outcome RemoveResult :=
      match step1.1 with
      | .exn (.attributeError _) => .ok .no_handlers_found
      | other => other
    match handler_remove_state with
    | .exn e => (.exn e, s1)
    | .sysExit m => (.sysExit m, s1)
    | .ok .no_handlers_found | .ok .removal_success => reattach_file_handler env s1
    | .ok .removal_failed => fatal_escalation s1 s1.event_handler

/-- _check_file_access (src 219-232): open the target path for append and release
it (one probe oracle outcome); on success call _switch_to_file, on
FileNotFoundError / OSError / IOError call _switch_to_eventlog with str(e). -/
def check_file_access (env : Env) (s : LoggerState) : Outcome Unit × LoggerState :=
  let pr := env.probe s.probeCount
  let s1 := { s with probeCount := s.probeCount + 1 }
  match pr with
  | .ok _ => switch_to_file env s1
  | .error e => switch_to_eventlog env s1 e

/-- The bound logging methods of logging.Logger reachable through
getattr(self.logger, level): each emits one record at a fixed numeric level. -/
def logger_method_level (level : String) : Option Nat :=
  if level = "debug" then some 10
  else if level = "info" then some 20
  else if level = "warning" then some 30
  else if level = "warn" then some 30
  else if level = "error" then some 40
  else if level = "exception" then some 40
  else if level = "critical" then some 50
  else if level = "fatal" then some 50
  else none

/-- Remaining public attributes of logging.Logger: getattr succeeds on these, and
the subsequent one-argument call does not emit the message as a record; it fails
with an exception that is not AttributeError (modelled uniformly as TypeError;
the exact class for these out-of-scope names varies). -/
def logger_other_attributes : List String :=
  ["log", "setLevel", "isEnabledFor", "getEffectiveLevel", "getChild", "addHandler",
   "removeHandler", "hasHandlers", "callHandlers", "handle", "makeRecord", "findCaller",
   "addFilter", "removeFilter", "filter", "handlers", "level", "name", "parent",
   "propagate", "disabled", "filters", "manager"]

/-- getattr(self.logger, level)(message) (src 384): an attribute name that does
not exist on the logger raises AttributeError; a logging method emits the record
at its level. -/
def getattr_call (s : LoggerState) (level message : String) : Outcome Unit × LoggerState :=
  match logger_method_level level with
  | some n => (.ok (), emitMeta s n message)
  | none =>
      if level ∈ logger_other_attributes then (.exn (.typeError level), s)
      else (.exn (.attributeError level), s)

/-- log (src 375-387): pre-probe, emit via getattr, post-probe; an exception or
exit from an earlier step propagates and skips the rest. -/
def log (env : Env) (s : LoggerState) (level message : String) : Outcome Unit × LoggerState :=
  let r1 := check_file_access env s
  match r1.1 with
  | .ok _ =>
      let r2 := getattr_call r1.2 level message
      match r2.1 with
      | .ok _ => check_file_access env r2.2
      | o2 => (o2, r2.2)
  | o1 => (o1, r1.2)

/-- Helper for splitext: true when every character is a dot. -/
def allDots : List Char → Bool
  | [] => true
  | c :: cs => c == '.' && allDots cs

/-- Helper for splitext: split at the last dot, if any, keeping the dot with the
second component. -/
def splitAtLastDot : List Char → Option (List Char × List Char)
  | [] => none
  | c :: cs =>
      match splitAtLastDot cs with
      | some (b, a) => some (c :: b, a)
      | none => if c == '.' then some ([], c :: cs) else none

/-- os.path.splitext on a bare file name (the log_file_base_filename argument):
splits off the extension at the last dot unless every character before that dot
is itself a dot. -/
def splitext (p : String) : String × String :=
  match splitAtLastDot p.data with
  | none => (p, "")
  | some (b, a) => if allDots b then (p, "") else (String.mk b, String.mk a)

/-- The error_data passed to _switch_to_eventlog from the constructor
(src 117-119): a plain (non-f) Python string literal, placeholders included
verbatim. -/
def init_failure_error_data : String :=
  "Failed to create rotating log file. Logging to Windows event log instead.\nCheck access and permissions are available to script operating functional user at: \x7bself.log_file_path\x7d\nError event data captured: \x7be\x7d"

/-- The file-name scheme of __init__ (src 67-82): base name, optional datetime
suffix, .log default extension. -/
def init_filename (log_file_path base ext now : String)
    (add_datetime_to_log_filname : Bool) : String :=
  match add_datetime_to_log_filname, ext with
  | true, "" => log_file_path ++ "/" ++ base ++ "_" ++ now ++ ".log"
  | true, e => log_file_path ++ "/" ++ base ++ "_" ++ now ++ e
  | false, "" => log_file_path ++ "/" ++ base ++ ".log"
  | false, e => log_file_path ++ "/" ++ base ++ e

/-- The session state right after the attribute assignments of __init__
(src 59-90), before any handler is attached. -/
def init_state (log_file_path logger_name logging_level filename : String) : LoggerState :=
  { log_file_path := log_file_path
    handler_base_name := logger_name
    logging_level := logging_level
    log_file_path_and_file_handler_filename := filename
    event_source := "pylogger_class"
    is_logging_to_eventlog := false
    handlers := []
    file_handler := none
    event_handler := none
    handler_removed := none
    nextId := 0
    probeCount := 0
    rfhCount := 0
    detachCount := 0
    metaLog := []
    evtLog := []
    popups := [] }

/-- RollingEventLogger.__init__ (src 16-127).  now is the datetime.now()
rendering %Y-%m-%d_%H-%M-%S; the session logger starts with no handlers (one
logical session per process); __name__ is the module name.  The stream mirror is
attached first when debug_in_stream; then os.makedirs plus the
RotatingFileHandler construction consume one rfhCtor oracle outcome: on failure
the constructor switches to the event log with the literal message
init_failure_error_data, on success the file handler is configured at the
session level. -/
def init (env : Env) (log_file_path log_file_base_filename logger_name : String)
    (logging_level : String) (debug_in_stream : Bool)
    (add_datetime_to_log_filname : Bool) (now : String) : Outcome LoggerState :=
  let se := splitext log_file_base_filename
  let base := se.1
  let ext := se.2
  let filename := init_filename log_file_path base ext now add_datetime_to_log_filname
  let s0 : LoggerState :=
    init_state log_file_path logger_name (pyLower logging_level) filename
  let afterStream : Outcome LoggerState :=
    if debug_in_stream then
      let sh : Handler := ⟨s0.nextId, "", HandlerKind.STR, 0⟩
      let s0a := { s0 with nextId := s0.nextId + 1 }
      match configure_handler s0a sh "d" (s0a.handler_base_name ++ "_STR") with
      | (.exn e, _) => .exn e
      | (.sysExit m, _) => .sysExit m
      | (.ok _, s0b) => .ok s0b
    else .ok s0
  match afterStream with
  | .exn e => .exn e
  | .sysExit m => .sysExit m
  | .ok s1 =>
      let ctor := env.rfhCtor s1.rfhCount
      let s2 := { s1 with rfhCount := s1.rfhCount + 1 }
      match ctor with
      | .error _ =>
          match switch_to_eventlog env s2 init_failure_error_data with
          | (.ok _, s3) => .ok s3
          | (.exn e, _) => .exn e
          | (.sysExit m, _) => .sysExit m
      | .ok _ =>
          let fh : Handler := ⟨s2.nextId, "", HandlerKind.RFH, 0⟩
          let s3 := { s2 with nextId := s2.nextId + 1, file_handler := some fh }
          match configure_handler s3 fh s3.logging_level (s3.handler_base_name ++ "_RFH") with
          | (.exn e, _) => .exn e
          | (.sysExit m, _) => .sysExit m
          | (.ok fh2, s4) => .ok { s4 with file_handler := some fh2 }

/-- A sequence of log calls from a state; an exception or exit stops the run and
returns the state at that point. -/
def runCalls (env : Env) : LoggerState → List (String × String) → Outcome Unit × LoggerState
  | s, [] => (.ok (), s)
  | s, (lvl, msg) :: rest =>
      let r := log env s lvl msg
      match r.1 with
      | .ok _ => runCalls env r.2 rest
      | o => (o, r.2)

/-- Number of attached handlers of a given kind. -/
def countKind (s : LoggerState) (k : HandlerKind) : Nat :=
  (s.handlers.filter (fun h => h.kind == k)).length

/-- A detach oracle in which the underlying detach never raises; this is the
behaviour of CPython Logger.removeHandler, so it covers every run in which no
removal failure is simulated. -/
def detachOK (env : Env) : Prop := ∀ n, env.detach n = Except.ok ()

/-- The permanent part of the handler list: empty, or exactly the console
stream mirror. -/
def strPart (pre : List Handler) : Prop :=
  pre = [] ∨ ∃ h, pre = [h] ∧ h.kind = HandlerKind.STR

/-- The failover part of the handler list: empty, or exactly one rotating file
handler consistent with the backend flag and the file_handler attribute, or
exactly one event-log handler consistent with the flag and the event_handler
attribute.  (An empty failover part together with a raised backend flag is the
state produced by a failed file-sink reconstruction.) -/
def foPart (s : LoggerState) (fo : List Handler) : Prop :=
  fo = [] ∨
  (∃ h, fo = [h] ∧ h.kind = HandlerKind.RFH
    ∧ h.name = s.handler_base_name ++ "_RFH"
    ∧ s.file_handler = some h ∧ s.is_logging_to_eventlog = false) ∨
  (∃ h, fo = [h] ∧ h.kind = HandlerKind.EVT
    ∧ h.name = s.handler_base_name ++ "_EVT"
    ∧ s.event_handler = some h ∧ s.is_logging_to_eventlog = true)

/-- The registry invariant maintained by the failover controller at call
boundaries: the handler list is a console part followed by at most one failover
handler consistent with the backend flag, object identities are fresh with
respect to the id counter and separated, and the configured session severity
selector is one of d/i/w/e/c. -/
structure Inv (s : LoggerState) : Prop where
  shape : ∃ pre fo, s.handlers = pre ++ fo ∧ strPart pre ∧ foPart s fo
    ∧ (∀ x ∈ pre, ∀ y ∈ fo, x.id ≠ y.id)
  fresh : ∀ h ∈ s.handlers, h.id < s.nextId
  level : ∃ lv, select_log_lev (pyLower s.logging_level) = some lv

/-- An oracle in which every probe, every constructor attempt and every detach
succeeds. -/
def envAllOK : Env :=
  { probe := fun _ => .ok ()
    rfhCtor := fun _ => .ok ()
    detach := fun _ => .ok () }

/-- A concrete freshly configured FILE_ACTIVE-shaped base state used to build
witness inputs. -/
def baseState : LoggerState :=
  { log_file_path := "D:/logs"
    handler_base_name := "myapp"
    logging_level := "w"
    log_file_path_and_file_handler_filename := "D:/logs/app.log"
    event_source := "pylogger_class"
    is_logging_to_eventlog := false
    handlers := []
    file_handler := none
    event_handler := none
    handler_removed := none
    nextId := 0
    probeCount := 0
    rfhCount := 0
    detachCount := 0
    metaLog := []
    evtLog := []
    popups := [] }

/-- A concrete EVENT_ACTIVE state: the event handler is attached and the backend
flag is set. -/
def eventActiveState : LoggerState :=
  { baseState with
    is_logging_to_eventlog := true
    handlers := [⟨1, "myapp_EVT", HandlerKind.EVT, 30⟩]
    event_handler := some ⟨1, "myapp_EVT", HandlerKind.EVT, 30⟩
    nextId := 2 }

/-- A concrete FILE_ACTIVE state with the rotating file handler attached. -/
def fileActiveState : LoggerState :=
  { baseState with
    handlers := [⟨0, "myapp_RFH", HandlerKind.RFH, 30⟩]
    file_handler := some ⟨0, "myapp_RFH", HandlerKind.RFH, 30⟩
    nextId := 1 }

/-- The session produced by a successful construction under envAllOK. -/
def initAllOK : LoggerState :=
  match init envAllOK "D:/logs" "app" "myapp" "w" false false "2026-01-01_00-00-00" with
  | .ok s => s
  | _ => default

/-- Oracle for the C1 failing input: the first probe fails (first call fails
over to the event log), every later probe succeeds, and the file-handler
reconstruction attempted by the post-emit probe of the first call fails. -/
def envC1 : Env :=
  { probe := fun n => if n == 0 then .error "disk unavailable" else .ok ()
    rfhCtor := fun n => if n == 0 then .ok () else .error "reconstruct failed"
    detach := fun _ => .ok () }

/-- The session produced by a successful construction under envC1. -/
def initC1 : LoggerState :=
  match init envC1 "D:/logs" "app" "myapp" "w" false false "2026-01-01_00-00-00" with
  | .ok s => s
  | _ => default

/-- Oracle for the C3 resumption trace: construction fails (the session starts
in EVENT_ACTIVE) and everything afterwards succeeds, so the first log call
resumes file logging. -/
def envC3 : Env :=
  { probe := fun _ => .ok ()
    rfhCtor := fun n => if n == 0 then .error "directory unavailable" else .ok ()
    detach := fun _ => .ok () }

/-- The session produced by construction under envC3 (already EVENT_ACTIVE). -/
def initC3 : LoggerState :=
  match init envC3 "D:/logs" "app" "myapp" "w" false false "2026-01-01_00-00-00" with
  | .ok s => s
  | _ => default

/-- Oracle for the C4 switch trace: construction succeeds, the first probe then
fails with the error text boom. -/
def envC4 : Env :=
  { probe := fun n => if n == 0 then .error "boom" else .ok ()
    rfhCtor := fun _ => .ok ()
    detach := fun _ => .ok () }

/-- The session produced by a successful construction under envC4. -/
def initC4 : LoggerState :=
  match init envC4 "D:/logs" "app" "myapp" "w" false false "2026-01-01_00-00-00" with
  | .ok s => s
  | _ => default

/-- Oracle for the C7 counterexample trace: probe 0 fails (switch to the event
log), probe 1 succeeds while the reconstruction fails (producing the
EVENT_ACTIVE state with no handler), and every later probe fails. -/
def envC7 : Env :=
  { probe := fun n => if n == 0 then .error "E1" else if n == 1 then .ok () else .error "E2"
    rfhCtor := fun n => if n == 0 then .ok () else .error "ctor fail"
    detach := fun _ => .ok () }

/-- The session produced by a successful construction under envC7. -/
def initC7 : LoggerState :=
  match init envC7 "D:/logs" "app" "myapp" "w" false false "2026-01-01_00-00-00" with
  | .ok s => s
  | _ => default

/-- Oracle for the C5 witness: the underlying detach raises. -/
def envDetachFail : Env :=
  { probe := fun _ => .ok ()
    rfhCtor := fun _ => .ok ()
    detach := fun _ => .error "simulated removal failure" }

/-- A FILE_ACTIVE state in which a previous removal has set handler_removed, so
a failing detach reports removal_failed. -/
def removalFailedState : LoggerState :=
  { fileActiveState with handler_removed := some "previous" }

/-- A minimal file-system state for the probe target: whether the containing
directory is reachable, whether the log file exists, whether the directory
permits creating the file, and whether an existing file may be opened for
append. -/
structure FS where
  dirExists : Bool
  fileExists : Bool
  canCreate : Bool
  canAppend : Bool
deriving DecidableEq, Repr

/-- Python open(path, "a") as used by the probe of _check_file_access
(src 228): append mode opens the existing file for writing, or creates an empty
file at the path when it does not exist and the directory permits creation;
the error cases carry the OSError text str(e). This models the documented
stdlib open semantics that the source relies on. -/
def openAppend (fs : FS) : Except String FS :=
  if fs.fileExists then
    if fs.canAppend then .ok fs
    else .error "PermissionError: open for append denied"
  else if fs.dirExists && fs.canCreate then .ok { fs with fileExists := true }
  else .error "FileNotFoundError: cannot open or create file"

/-- _check_file_access with the probe outcome supplied by the file-system model
instead of the abstract probe oracle: the probe is the openAppend call, whose
success routes to _switch_to_file and whose OSError routes to
_switch_to_eventlog with str(e). -/
def check_file_access_fs (env : Env) (s : LoggerState) (fs : FS) :
    (Outcome Unit × LoggerState) × FS :=
  match openAppend fs with
  | .ok fs2 => (switch_to_file env s, fs2)
  | .error e => (switch_to_eventlog env s e, fs)

/-- A FILE_ACTIVE state in which both handler attributes have been set at some
point (file_handler by the constructor, event_handler by an earlier failover
episode), as in any session that has been through the event log and back. -/
def c8State : LoggerState :=
  { fileActiveState with event_handler := some ⟨3, "old_EVT", HandlerKind.EVT, 30⟩ }

section Frames

/-- Fields of the state that the handler-removal method never writes. -/
def RemoveFrame (s t : LoggerState) : Prop :=
  t.log_file_path = s.log_file_path ∧
  t.handler_base_name = s.handler_base_name ∧
  t.logging_level = s.logging_level ∧
  t.log_file_path_and_file_handler_filename = s.log_file_path_and_file_handler_filename ∧
  t.event_source = s.event_source ∧
  t.popups = s.popups ∧
  t.probeCount = s.probeCount ∧
  t.rfhCount = s.rfhCount ∧
  t.nextId = s.nextId ∧
  t.is_logging_to_eventlog = s.is_logging_to_eventlog ∧
  t.file_handler = s.file_handler ∧
  t.event_handler = s.event_handler

theorem removeFrame_refl (s : LoggerState) : RemoveFrame s s := by
  refine ⟨rfl, rfl, rfl, rfl, rfl, rfl, rfl, rfl, rfl, rfl, rfl, rfl⟩

theorem remove_loop_frame (env : Env) (handler_name handler_type : String) :
    ∀ (l : List Handler) (s : LoggerState),
      RemoveFrame s (remove_handler_loop env handler_name handler_type l s).2 := by
  intro l
  induction l with
  | nil =>
      intro s
      simp only [remove_handler_loop, emitMeta]
      exact removeFrame_refl _
  | cons h rest ih =>
      intro s
      simp only [remove_handler_loop]
      by_cases h1 : h.kind = HandlerKind.RFH ∧ h.name = handler_name
      · simp only [h1, if_true]
        cases hfh : s.file_handler with
        | none =>
            simp only [remove_handler_except_block]
            cases hhr : s.handler_removed with
            | none => exact removeFrame_refl _
            | some hr =>
                simp only [emitMeta, output_evtlog]
                exact ⟨rfl, rfl, rfl, rfl, rfl, rfl, rfl, rfl, rfl, rfl, rfl, rfl⟩
        | some fh =>
            simp only [removeHandler]
            cases hd : env.detach s.detachCount with
            | error e =>
                simp only [remove_handler_except_block]
                cases hhr : s.handler_removed with
                | none => exact removeFrame_refl _
                | some hr =>
                    simp only [emitMeta, output_evtlog]
                    exact ⟨rfl, rfl, rfl, rfl, rfl, rfl, rfl, rfl, rfl, rfl, rfl, rfl⟩
            | ok u =>
                simp only [emitMeta]
                exact ⟨rfl, rfl, rfl, rfl, rfl, rfl, rfl, rfl, rfl, rfl, rfl, rfl⟩
      · simp only [h1, if_false]
        by_cases h2 : h.kind = HandlerKind.EVT ∧ h.name = handler_name
        · simp only [h2, if_true]
          cases heh : s.event_handler with
          | none =>
              simp only [remove_handler_except_block]
              cases hhr : s.handler_removed with
              | none => exact removeFrame_refl _
              | some hr =>
                  simp only [emitMeta, output_evtlog]
                  exact ⟨rfl, rfl, rfl, rfl, rfl, rfl, rfl, rfl, rfl, rfl, rfl, rfl⟩
          | some eh =>
              simp only [removeHandler]
              cases hd : env.detach s.detachCount with
              | error e =>
                  simp only [remove_handler_except_block]
                  cases hhr : s.handler_removed with
                  | none => exact removeFrame_refl _
                  | some hr =>
                      simp only [emitMeta, output_evtlog]
                      exact ⟨rfl, rfl, rfl, rfl, rfl, rfl, rfl, rfl, rfl, rfl, rfl, rfl⟩
              | ok u =>
                  simp only [emitMeta]
                  exact ⟨rfl, rfl, rfl, rfl, rfl, rfl, rfl, rfl, rfl, rfl, rfl, rfl⟩
        · simp only [h2, if_false]
          exact ih s

theorem check_for_and_remove_frame (env : Env) (s : LoggerState)
    (handler_name handler_type : String) :
    RemoveFrame s (check_for_and_remove_handler_of_specified_type env s handler_name handler_type).2 :=
  remove_loop_frame env handler_name handler_type s.handlers s

theorem configure_probeCount (s : LoggerState) (h : Handler) (l n : String) :
    ((configure_handler s h l n).2).probeCount = s.probeCount := by
  simp only [configure_handler, addHandler]
  split
  · rfl
  · split <;> split <;> rfl

theorem fatal_probeCount (s1 : LoggerState) (ha : Option Handler) :
    ((fatal_escalation s1 ha).2).probeCount = s1.probeCount := by
  unfold fatal_escalation
  cases ha <;> rfl

theorem attach_event_handler_probeCount (s1 : LoggerState) (e : String) :
    ((attach_event_handler s1 e).2).probeCount = s1.probeCount := by
  simp only [attach_event_handler]
  rcases hc : configure_handler
      { s1 with nextId := s1.nextId + 1, event_handler := some ⟨s1.nextId, "", HandlerKind.EVT, 0⟩ }
      ⟨s1.nextId, "", HandlerKind.EVT, 0⟩ s1.logging_level (s1.handler_base_name ++ "_EVT")
    with ⟨c1, t2⟩
  have ht2 : t2.probeCount = s1.probeCount := by
    have := configure_probeCount
      { s1 with nextId := s1.nextId + 1, event_handler := some ⟨s1.nextId, "", HandlerKind.EVT, 0⟩ }
      ⟨s1.nextId, "", HandlerKind.EVT, 0⟩ s1.logging_level (s1.handler_base_name ++ "_EVT")
    rw [hc] at this
    exact this
  match c1 with
  | .exn e2 => simpa using ht2
  | .sysExit m => simpa using ht2
  | .ok eh2 => simp only [emitMeta, output_evtlog]; exact ht2

theorem switch_to_eventlog_probeCount (env : Env) (s : LoggerState) (e : String) :
    ((switch_to_eventlog env s e).2).probeCount = s.probeCount := by
  unfold switch_to_eventlog
  by_cases hb : s.is_logging_to_eventlog = true
  · simp [hb]
  · rw [if_neg hb]
    rcases hr : check_for_and_remove_handler_of_specified_type env s
        (s.handler_base_name ++ "_RFH") "rfh" with ⟨r1, t1⟩
    have hfr := check_for_and_remove_frame env s (s.handler_base_name ++ "_RFH") "rfh"
    rw [hr] at hfr
    have ht1 : t1.probeCount = s.probeCount := hfr.2.2.2.2.2.2.1
    match r1 with
    | .sysExit m => simpa [hr] using ht1
    | .exn (.keyError w) => simpa [hr] using ht1
    | .exn (.typeError w) => simpa [hr] using ht1
    | .ok .removal_failed => simp only [hr]; rw [fatal_probeCount]; exact ht1
    | .exn (.attributeError w) =>
        simp only [hr]; rw [attach_event_handler_probeCount]; exact ht1
    | .ok .no_handlers_found =>
        simp only [hr]; rw [attach_event_handler_probeCount]; exact ht1
    | .ok .removal_success =>
        simp only [hr]; rw [attach_event_handler_probeCount]; exact ht1

theorem reattach_file_handler_probeCount (env : Env) (s1 : LoggerState) :
    ((reattach_file_handler env s1).2).probeCount = s1.probeCount := by
  simp only [reattach_file_handler]
  split
  · rw [switch_to_eventlog_probeCount]
  · split
    all_goals
      rename_i heq
      have h2 := congrArg (fun p => (p.2).probeCount) heq
      simp only [configure_probeCount, output_evtlog] at h2
      simp only [emitMeta]
      omega

theorem switch_to_file_probeCount (env : Env) (s : LoggerState) :
    ((switch_to_file env s).2).probeCount = s.probeCount := by
  unfold switch_to_file
  by_cases hb : s.is_logging_to_eventlog = false
  · simp [hb]
  · rw [if_neg hb]
    rcases hr : check_for_and_remove_handler_of_specified_type env s
        (s.handler_base_name ++ "_EVT") "evt" with ⟨r1, t1⟩
    have hfr := check_for_and_remove_frame env s (s.handler_base_name ++ "_EVT") "evt"
    rw [hr] at hfr
    have ht1 : t1.probeCount = s.probeCount := hfr.2.2.2.2.2.2.1
    match r1 with
    | .sysExit m => simpa [hr] using ht1
    | .exn (.keyError w) => simpa [hr] using ht1
    | .exn (.typeError w) => simpa [hr] using ht1
    | .ok .removal_failed => simp only [hr]; rw [fatal_probeCount]; exact ht1
    | .exn (.attributeError w) =>
        simp only [hr]; rw [reattach_file_handler_probeCount]; exact ht1
    | .ok .no_handlers_found =>
        simp only [hr]; rw [reattach_file_handler_probeCount]; exact ht1
    | .ok .removal_success =>
        simp only [hr]; rw [reattach_file_handler_probeCount]; exact ht1

theorem check_file_access_probeCount (env : Env) (s : LoggerState) :
    ((check_file_access env s).2).probeCount = s.probeCount + 1 := by
  unfold check_file_access
  cases env.probe s.probeCount with
  | ok u => rw [switch_to_file_probeCount]
  | error e => rw [switch_to_eventlog_probeCount]

end Frames

section Noop

theorem switch_to_eventlog_noop (env : Env) (s : LoggerState) (e : String)
    (h : s.is_logging_to_eventlog = true) :
    switch_to_eventlog env s e = (.ok (), s) := by
  unfold switch_to_eventlog
  rw [if_pos h]

theorem switch_to_file_noop (env : Env) (s : LoggerState)
    (h : s.is_logging_to_eventlog = false) :
    switch_to_file env s = (.ok (), s) := by
  unfold switch_to_file
  rw [if_pos h]

end Noop

section RemoveSpec

theorem append_ne_empty_of_right (a b : String) (hb : b.data ≠ []) : a ++ b ≠ "" := by
  intro h
  have hd : a.data ++ b.data = [] := by
    have h2 := congrArg String.data h
    rwa [String.data_append] at h2
  exact hb (List.append_eq_nil.mp hd).2

theorem remove_loop_skip_str (env : Env) (nm ty : String) (h : Handler)
    (rest : List Handler) (s : LoggerState) (hk : h.kind = HandlerKind.STR) :
    remove_handler_loop env nm ty (h :: rest) s = remove_handler_loop env nm ty rest s := by
  have h1 : ¬(h.kind = HandlerKind.RFH ∧ h.name = nm) := by
    rintro ⟨hk2, -⟩
    rw [hk] at hk2
    exact absurd hk2 (by decide)
  have h2 : ¬(h.kind = HandlerKind.EVT ∧ h.name = nm) := by
    rintro ⟨hk2, -⟩
    rw [hk] at hk2
    exact absurd hk2 (by decide)
  simp only [remove_handler_loop, if_neg h1, if_neg h2]

theorem remove_loop_hit_rfh (env : Env) (nm ty : String) (h : Handler)
    (rest : List Handler) (s : LoggerState)
    (hk : h.kind = HandlerKind.RFH) (hn : h.name = nm)
    (fh : Handler) (hfh : s.file_handler = some fh)
    (hd : env.detach s.detachCount = Except.ok ()) :
    remove_handler_loop env nm ty (h :: rest) s =
      (.ok .removal_success,
        { s with detachCount := s.detachCount + 1,
                 handlers := s.handlers.eraseP (fun x => x.id == fh.id),
                 metaLog := s.metaLog ++ [⟨10,
                   "Successful removal of Rotating File Handler between switching logging methods",
                   s.handlers.eraseP (fun x => x.id == fh.id)⟩],
                 handler_removed := some fh.name }) := by
  simp only [remove_handler_loop, if_pos (⟨hk, hn⟩ : h.kind = HandlerKind.RFH ∧ h.name = nm)]
  rw [hfh]
  simp only [removeHandler]
  rw [hd]
  simp [emitMeta, handlerStr, hfh]

theorem remove_loop_hit_evt (env : Env) (nm ty : String) (h : Handler)
    (rest : List Handler) (s : LoggerState)
    (hk : h.kind = HandlerKind.EVT) (hn : h.name = nm)
    (eh : Handler) (heh : s.event_handler = some eh)
    (hd : env.detach s.detachCount = Except.ok ()) :
    remove_handler_loop env nm ty (h :: rest) s =
      (.ok .removal_success,
        { s with detachCount := s.detachCount + 1,
                 handlers := s.handlers.eraseP (fun x => x.id == eh.id),
                 metaLog := s.metaLog ++ [⟨10,
                   "Successful removal of Windows Event Log Handler between switching logging methods",
                   s.handlers.eraseP (fun x => x.id == eh.id)⟩],
                 handler_removed := some eh.name }) := by
  have h1 : ¬(h.kind = HandlerKind.RFH ∧ h.name = nm) := by
    rintro ⟨hk2, -⟩
    rw [hk] at hk2
    exact absurd hk2 (by decide)
  simp only [remove_handler_loop, if_neg h1,
    if_pos (⟨hk, hn⟩ : h.kind = HandlerKind.EVT ∧ h.name = nm)]
  rw [heh]
  simp only [removeHandler]
  rw [hd]
  simp [emitMeta, handlerStr, heh]

theorem remove_loop_all_str (env : Env) (nm ty : String) (s : LoggerState) :
    ∀ (l : List Handler), (∀ x ∈ l, x.kind = HandlerKind.STR) →
      remove_handler_loop env nm ty l s
        = (.ok .no_handlers_found,
           emitMeta s 10 "No handlers found at time of switching logs") := by
  intro l
  induction l with
  | nil => intro _; rfl
  | cons a as ih =>
      intro hl
      rw [remove_loop_skip_str env nm ty a as s (hl a (List.mem_cons_self a as))]
      exact ih (fun x hx => hl x (List.mem_cons_of_mem a hx))

theorem check_remove_not_found (env : Env) (s : LoggerState) (nm ty : String)
    (hall : ∀ x ∈ s.handlers, x.kind = HandlerKind.STR) :
    check_for_and_remove_handler_of_specified_type env s nm ty
      = (.ok .no_handlers_found,
         emitMeta s 10 "No handlers found at time of switching logs") :=
  remove_loop_all_str env nm ty s s.handlers hall

theorem remove_loop_prefix_str (env : Env) (nm ty : String) (s : LoggerState)
    (tail : List Handler) :
    ∀ (l : List Handler), (∀ x ∈ l, x.kind = HandlerKind.STR) →
      remove_handler_loop env nm ty (l ++ tail) s = remove_handler_loop env nm ty tail s := by
  intro l
  induction l with
  | nil => intro _; rfl
  | cons a as ih =>
      intro hl
      rw [List.cons_append,
        remove_loop_skip_str env nm ty a (as ++ tail) s (hl a (List.mem_cons_self a as))]
      exact ih (fun x hx => hl x (List.mem_cons_of_mem a hx))

theorem erase_append_singleton (pre : List Handler) (h : Handler)
    (hid : ∀ x ∈ pre, x.id ≠ h.id) :
    (pre ++ [h]).eraseP (fun x => x.id == h.id) = pre := by
  induction pre with
  | nil => simp [List.eraseP_cons]
  | cons a as ih =>
      have ha : (a.id == h.id) = false := by
        have := hid a (List.mem_cons_self a as)
        simp [this]
      rw [List.cons_append, List.eraseP_cons, ha]
      simp only [cond_false]
      rw [ih (fun x hx => hid x (List.mem_cons_of_mem a hx))]

theorem check_remove_rfh (env : Env) (s : LoggerState) (nm ty : String)
    (pre : List Handler) (h : Handler)
    (hh : s.handlers = pre ++ [h])
    (hpre : ∀ x ∈ pre, x.kind = HandlerKind.STR)
    (hk : h.kind = HandlerKind.RFH) (hn : h.name = nm)
    (hfh : s.file_handler = some h)
    (hid : ∀ x ∈ pre, x.id ≠ h.id)
    (hd : env.detach s.detachCount = Except.ok ()) :
    check_for_and_remove_handler_of_specified_type env s nm ty
      = (.ok .removal_success,
         { s with detachCount := s.detachCount + 1,
                  handlers := pre,
                  metaLog := s.metaLog ++ [⟨10,
                    "Successful removal of Rotating File Handler between switching logging methods",
                    pre⟩],
                  handler_removed := some h.name }) := by
  have herase : s.handlers.eraseP (fun x => x.id == h.id) = pre := by
    rw [hh]
    exact erase_append_singleton pre h hid
  unfold check_for_and_remove_handler_of_specified_type
  rw [hh, remove_loop_prefix_str env nm ty s [h] pre hpre,
    remove_loop_hit_rfh env nm ty h [] s hk hn h hfh hd, herase]

theorem check_remove_evt (env : Env) (s : LoggerState) (nm ty : String)
    (pre : List Handler) (h : Handler)
    (hh : s.handlers = pre ++ [h])
    (hpre : ∀ x ∈ pre, x.kind = HandlerKind.STR)
    (hk : h.kind = HandlerKind.EVT) (hn : h.name = nm)
    (heh : s.event_handler = some h)
    (hid : ∀ x ∈ pre, x.id ≠ h.id)
    (hd : env.detach s.detachCount = Except.ok ()) :
    check_for_and_remove_handler_of_specified_type env s nm ty
      = (.ok .removal_success,
         { s with detachCount := s.detachCount + 1,
                  handlers := pre,
                  metaLog := s.metaLog ++ [⟨10,
                    "Successful removal of Windows Event Log Handler between switching logging methods",
                    pre⟩],
                  handler_removed := some h.name }) := by
  have herase : s.handlers.eraseP (fun x => x.id == h.id) = pre := by
    rw [hh]
    exact erase_append_singleton pre h hid
  unfold check_for_and_remove_handler_of_specified_type
  rw [hh, remove_loop_prefix_str env nm ty s [h] pre hpre,
    remove_loop_hit_evt env nm ty h [] s hk hn h heh hd, herase]

end RemoveSpec

section SwitchSpec

theorem any_id_eq_false_of_fresh (s1 : LoggerState)
    (hfresh : ∀ x ∈ s1.handlers, x.id < s1.nextId) :
    (s1.handlers.any fun x => x.id == s1.nextId) = false := by
  rw [List.any_eq_false]
  intro x hx
  have hlt := hfresh x hx
  simp only [beq_iff_eq]
  omega

theorem attach_event_handler_spec (s1 : LoggerState) (e : String) (lv : Nat)
    (hsel : select_log_lev (pyLower s1.logging_level) = some lv)
    (hfresh : ∀ x ∈ s1.handlers, x.id < s1.nextId) :
    attach_event_handler s1 e =
      (.ok (),
       { s1 with
         nextId := s1.nextId + 1,
         event_handler := some ⟨s1.nextId, s1.handler_base_name ++ "_EVT", HandlerKind.EVT, lv⟩,
         handlers := s1.handlers ++ [⟨s1.nextId, s1.handler_base_name ++ "_EVT", HandlerKind.EVT, lv⟩],
         is_logging_to_eventlog := true,
         metaLog := s1.metaLog ++ [⟨30, switch_meta_message,
           s1.handlers ++ [⟨s1.nextId, s1.handler_base_name ++ "_EVT", HandlerKind.EVT, lv⟩]⟩],
         evtLog := s1.evtLog ++ [⟨s1.event_source, EVENTLOG_ERROR_TYPE, 0, 0,
           ["Failed to access rolling log file. Switching to Windows event logging.",
            "Check access and permissions are available to script operating functional user at: "
              ++ s1.log_file_path_and_file_handler_filename,
            "Thefollowing error was recorded: " ++ e],
           "Failed\x00to\x00access\x00rolling\x00log\x00file.\x00Logging\x00to\x00event\x00log\x00instead."⟩] }) := by
  have hne : s1.handler_base_name ++ "_EVT" ≠ "" :=
    append_ne_empty_of_right _ "_EVT" (by decide)
  have hmem := any_id_eq_false_of_fresh s1 hfresh
  simp only [attach_event_handler, configure_handler, addHandler]
  simp only [hsel, if_pos hne]
  simp [emitMeta, output_evtlog, hmem]

theorem reattach_file_handler_spec (env : Env) (s1 : LoggerState) (lv : Nat)
    (hsel : select_log_lev (pyLower s1.logging_level) = some lv)
    (hfresh : ∀ x ∈ s1.handlers, x.id < s1.nextId)
    (hctor : env.rfhCtor s1.rfhCount = Except.ok ()) :
    reattach_file_handler env s1 =
      (.ok (),
       { s1 with
         rfhCount := s1.rfhCount + 1,
         nextId := s1.nextId + 1,
         file_handler := some ⟨s1.nextId, s1.handler_base_name ++ "_RFH", HandlerKind.RFH, lv⟩,
         handlers := s1.handlers ++ [⟨s1.nextId, s1.handler_base_name ++ "_RFH", HandlerKind.RFH, lv⟩],
         is_logging_to_eventlog := false,
         evtLog := s1.evtLog ++ [⟨s1.event_source, EVENTLOG_INFORMATION_TYPE, 0, 0,
           ["Resuming logging to rolling log file.",
            "Check " ++ s1.log_file_path_and_file_handler_filename ++ " for further log data."],
           "Resuming\x00logging\x00to\x00rolling\x00log\x00file."⟩],
         metaLog := s1.metaLog ++ [⟨30,
           "Resuming logging to rolling log file.\nCheck "
             ++ s1.log_file_path_and_file_handler_filename ++ " for further log data.",
           s1.handlers ++ [⟨s1.nextId, s1.handler_base_name ++ "_RFH", HandlerKind.RFH, lv⟩]⟩] }) := by
  have hne : s1.handler_base_name ++ "_RFH" ≠ "" :=
    append_ne_empty_of_right _ "_RFH" (by decide)
  have hmem := any_id_eq_false_of_fresh s1 hfresh
  simp only [reattach_file_handler]
  rw [hctor]
  simp only [configure_handler, addHandler, output_evtlog]
  simp only [hsel, if_pos hne]
  simp [emitMeta, hmem]

theorem reattach_file_handler_ctorfail (env : Env) (s1 : LoggerState) (e : String)
    (hflag : s1.is_logging_to_eventlog = true)
    (hctor : env.rfhCtor s1.rfhCount = Except.error e) :
    reattach_file_handler env s1 = (.ok (), { s1 with rfhCount := s1.rfhCount + 1 }) := by
  simp only [reattach_file_handler]
  rw [hctor]
  exact switch_to_eventlog_noop env { s1 with rfhCount := s1.rfhCount + 1 } _ hflag

theorem strPart_kinds (pre : List Handler) (hpre : strPart pre) :
    ∀ x ∈ pre, x.kind = HandlerKind.STR := by
  rcases hpre with rfl | ⟨h0, rfl, hk0⟩
  · intro x hx
    cases hx
  · intro x hx
    rcases List.mem_singleton.mp hx with rfl
    exact hk0

theorem switch_to_eventlog_spec (env : Env) (s : LoggerState) (e : String)
    (hd : detachOK env) (hInv : Inv s) (hf : s.is_logging_to_eventlog = false) :
    ∃ (pre : List Handler) (d : MetaRecord) (dc : Nat) (hrm : Option String) (lv : Nat),
      select_log_lev (pyLower s.logging_level) = some lv
      ∧ strPart pre
      ∧ (∀ x ∈ pre, x.id < s.nextId)
      ∧ d.level = 10
      ∧ switch_to_eventlog env s e =
          (.ok (),
           { s with
             is_logging_to_eventlog := true,
             handlers := pre ++ [⟨s.nextId, s.handler_base_name ++ "_EVT", HandlerKind.EVT, lv⟩],
             event_handler := some ⟨s.nextId, s.handler_base_name ++ "_EVT", HandlerKind.EVT, lv⟩,
             handler_removed := hrm,
             nextId := s.nextId + 1,
             detachCount := dc,
             metaLog := s.metaLog ++ [d, ⟨30, switch_meta_message,
               pre ++ [⟨s.nextId, s.handler_base_name ++ "_EVT", HandlerKind.EVT, lv⟩]⟩],
             evtLog := s.evtLog ++ [⟨s.event_source, EVENTLOG_ERROR_TYPE, 0, 0,
               ["Failed to access rolling log file. Switching to Windows event logging.",
                "Check access and permissions are available to script operating functional user at: "
                  ++ s.log_file_path_and_file_handler_filename,
                "Thefollowing error was recorded: " ++ e],
               "Failed\x00to\x00access\x00rolling\x00log\x00file.\x00Logging\x00to\x00event\x00log\x00instead."⟩] }) := by
  obtain ⟨pre, fo, hh, hpre, hfo, hsep⟩ := hInv.shape
  obtain ⟨lv, hsel⟩ := hInv.level
  have hpre' := strPart_kinds pre hpre
  have hb : ¬ s.is_logging_to_eventlog = true := by
    rw [hf]
    decide
  rcases hfo with hfo | hfo | hfo
  · -- no failover handler attached: removal reports no_handlers_found
    subst hfo
    rw [List.append_nil] at hh
    have hall : ∀ x ∈ s.handlers, x.kind = HandlerKind.STR := by
      rw [hh]
      exact hpre'
    have hcr := check_remove_not_found env s (s.handler_base_name ++ "_RFH") "rfh" hall
    have hfresh1 : ∀ x ∈ (emitMeta s 10 "No handlers found at time of switching logs").handlers,
        x.id < (emitMeta s 10 "No handlers found at time of switching logs").nextId := by
      simp only [emitMeta]
      exact hInv.fresh
    have hat := attach_event_handler_spec
      (emitMeta s 10 "No handlers found at time of switching logs") e lv
      (by simpa [emitMeta] using hsel) hfresh1
    refine ⟨pre, ⟨10, "No handlers found at time of switching logs", s.handlers⟩,
      s.detachCount, s.handler_removed, lv, hsel, hpre, ?_, rfl, ?_⟩
    · intro x hx
      exact hInv.fresh x (by rw [hh]; exact hx)
    · simp only [switch_to_eventlog]
      rw [if_neg hb, hcr]
      simp only [emitMeta] at hat ⊢
      rw [hat, hh]
      simp [List.append_assoc]
  · -- a rotating file handler is attached: removal succeeds and detaches it
    obtain ⟨h0, rfl, hk0, hn0, hfh0, -⟩ := hfo
    have hid : ∀ x ∈ pre, x.id ≠ h0.id := by
      intro x hx
      exact hsep x hx h0 (by simp)
    have hcr := check_remove_rfh env s (s.handler_base_name ++ "_RFH") "rfh" pre h0
      hh hpre' hk0 hn0 hfh0 hid (hd s.detachCount)
    have hfresh1 : ∀ x ∈ pre, x.id < s.nextId := by
      intro x hx
      exact hInv.fresh x (by rw [hh]; exact List.mem_append_left _ hx)
    refine ⟨pre, ⟨10,
      "Successful removal of Rotating File Handler between switching logging methods", pre⟩,
      s.detachCount + 1, some h0.name, lv, hsel, hpre, hfresh1, rfl, ?_⟩
    simp only [switch_to_eventlog]
    rw [if_neg hb, hcr]
    have hat := attach_event_handler_spec
      { s with detachCount := s.detachCount + 1,
               handlers := pre,
               metaLog := s.metaLog ++ [⟨10,
                 "Successful removal of Rotating File Handler between switching logging methods",
                 pre⟩],
               handler_removed := some h0.name } e lv (by simpa using hsel)
      (by simpa using hfresh1)
    simp only [hat]
    simp
  · -- an event handler attached would mean the flag is already set
    obtain ⟨h0, -, -, -, -, hflag⟩ := hfo
    rw [hf] at hflag
    cases hflag

theorem switch_to_file_spec (env : Env) (s : LoggerState)
    (hd : detachOK env) (hInv : Inv s) (hf : s.is_logging_to_eventlog = true)
    (hctor : env.rfhCtor s.rfhCount = Except.ok ()) :
    ∃ (pre : List Handler) (d : MetaRecord) (dc : Nat) (hrm : Option String) (lv : Nat),
      select_log_lev (pyLower s.logging_level) = some lv
      ∧ strPart pre
      ∧ (∀ x ∈ pre, x.id < s.nextId)
      ∧ d.level = 10
      ∧ switch_to_file env s =
          (.ok (),
           { s with
             is_logging_to_eventlog := false,
             handlers := pre ++ [⟨s.nextId, s.handler_base_name ++ "_RFH", HandlerKind.RFH, lv⟩],
             file_handler := some ⟨s.nextId, s.handler_base_name ++ "_RFH", HandlerKind.RFH, lv⟩,
             handler_removed := hrm,
             nextId := s.nextId + 1,
             detachCount := dc,
             rfhCount := s.rfhCount + 1,
             evtLog := s.evtLog ++ [⟨s.event_source, EVENTLOG_INFORMATION_TYPE, 0, 0,
               ["Resuming logging to rolling log file.",
                "Check " ++ s.log_file_path_and_file_handler_filename ++ " for further log data."],
               "Resuming\x00logging\x00to\x00rolling\x00log\x00file."⟩],
             metaLog := s.metaLog ++ [d, ⟨30,
               "Resuming logging to rolling log file.\nCheck "
                 ++ s.log_file_path_and_file_handler_filename ++ " for further log data.",
               pre ++ [⟨s.nextId, s.handler_base_name ++ "_RFH", HandlerKind.RFH, lv⟩]⟩] }) := by
  obtain ⟨pre, fo, hh, hpre, hfo, hsep⟩ := hInv.shape
  obtain ⟨lv, hsel⟩ := hInv.level
  have hpre' := strPart_kinds pre hpre
  have hb : ¬ s.is_logging_to_eventlog = false := by
    rw [hf]
    decide
  rcases hfo with hfo | hfo | hfo
  · -- no failover handler attached: removal reports no_handlers_found
    subst hfo
    rw [List.append_nil] at hh
    have hall : ∀ x ∈ s.handlers, x.kind = HandlerKind.STR := by
      rw [hh]
      exact hpre'
    have hcr := check_remove_not_found env s (s.handler_base_name ++ "_EVT") "evt" hall
    have hre := reattach_file_handler_spec env
      (emitMeta s 10 "No handlers found at time of switching logs") lv
      (by simpa [emitMeta] using hsel) (by simpa [emitMeta] using hInv.fresh)
      (by simpa [emitMeta] using hctor)
    refine ⟨pre, ⟨10, "No handlers found at time of switching logs", s.handlers⟩,
      s.detachCount, s.handler_removed, lv, hsel, hpre, ?_, rfl, ?_⟩
    · intro x hx
      exact hInv.fresh x (by rw [hh]; exact hx)
    · simp only [switch_to_file]
      rw [if_neg hb, hcr]
      simp only [emitMeta] at hre ⊢
      rw [hre, hh]
      simp [List.append_assoc]
  · -- a rotating file handler attached would mean the flag is not set
    obtain ⟨h0, -, -, -, -, hflag⟩ := hfo
    rw [hf] at hflag
    cases hflag
  · -- the event handler is attached: removal succeeds and detaches it
    obtain ⟨h0, rfl, hk0, hn0, heh0, -⟩ := hfo
    have hid : ∀ x ∈ pre, x.id ≠ h0.id := by
      intro x hx
      exact hsep x hx h0 (by simp)
    have hcr := check_remove_evt env s (s.handler_base_name ++ "_EVT") "evt" pre h0
      hh hpre' hk0 hn0 heh0 hid (hd s.detachCount)
    have hfresh1 : ∀ x ∈ pre, x.id < s.nextId := by
      intro x hx
      exact hInv.fresh x (by rw [hh]; exact List.mem_append_left _ hx)
    refine ⟨pre, ⟨10,
      "Successful removal of Windows Event Log Handler between switching logging methods", pre⟩,
      s.detachCount + 1, some h0.name, lv, hsel, hpre, hfresh1, rfl, ?_⟩
    simp only [switch_to_file]
    rw [if_neg hb, hcr]
    have hre := reattach_file_handler_spec env
      { s with detachCount := s.detachCount + 1,
               handlers := pre,
               metaLog := s.metaLog ++ [⟨10,
                 "Successful removal of Windows Event Log Handler between switching logging methods",
                 pre⟩],
               handler_removed := some h0.name } lv (by simpa using hsel)
      (by simpa using hfresh1) (by simpa using hctor)
    rw [hre]
    simp

theorem switch_to_file_ctorfail_spec (env : Env) (s : LoggerState) (e2 : String)
    (hd : detachOK env) (hInv : Inv s) (hf : s.is_logging_to_eventlog = true)
    (hctor : env.rfhCtor s.rfhCount = Except.error e2) :
    ∃ (pre : List Handler) (d : MetaRecord) (dc : Nat) (hrm : Option String),
      strPart pre
      ∧ (∀ x ∈ pre, x.id < s.nextId)
      ∧ d.level = 10
      ∧ switch_to_file env s =
          (.ok (),
           { s with
             handlers := pre,
             handler_removed := hrm,
             detachCount := dc,
             rfhCount := s.rfhCount + 1,
             metaLog := s.metaLog ++ [d] }) := by
  obtain ⟨pre, fo, hh, hpre, hfo, hsep⟩ := hInv.shape
  have hpre' := strPart_kinds pre hpre
  have hb : ¬ s.is_logging_to_eventlog = false := by
    rw [hf]
    decide
  rcases hfo with hfo | hfo | hfo
  · subst hfo
    rw [List.append_nil] at hh
    have hall : ∀ x ∈ s.handlers, x.kind = HandlerKind.STR := by
      rw [hh]
      exact hpre'
    have hcr := check_remove_not_found env s (s.handler_base_name ++ "_EVT") "evt" hall
    have hre := reattach_file_handler_ctorfail env
      (emitMeta s 10 "No handlers found at time of switching logs") e2
      (by simpa [emitMeta] using hf) (by simpa [emitMeta] using hctor)
    refine ⟨pre, ⟨10, "No handlers found at time of switching logs", s.handlers⟩,
      s.detachCount, s.handler_removed, hpre, ?_, rfl, ?_⟩
    · intro x hx
      exact hInv.fresh x (by rw [hh]; exact hx)
    · simp only [switch_to_file]
      rw [if_neg hb, hcr]
      simp only [emitMeta] at hre ⊢
      rw [hre, hh]
  · obtain ⟨h0, -, -, -, -, hflag⟩ := hfo
    rw [hf] at hflag
    cases hflag
  · obtain ⟨h0, rfl, hk0, hn0, heh0, -⟩ := hfo
    have hid : ∀ x ∈ pre, x.id ≠ h0.id := by
      intro x hx
      exact hsep x hx h0 (by simp)
    have hcr := check_remove_evt env s (s.handler_base_name ++ "_EVT") "evt" pre h0
      hh hpre' hk0 hn0 heh0 hid (hd s.detachCount)
    refine ⟨pre, ⟨10,
      "Successful removal of Windows Event Log Handler between switching logging methods", pre⟩,
      s.detachCount + 1, some h0.name, hpre, ?_, rfl, ?_⟩
    · intro x hx
      exact hInv.fresh x (by rw [hh]; exact List.mem_append_left _ hx)
    · simp only [switch_to_file]
      rw [if_neg hb, hcr]
      have hre := reattach_file_handler_ctorfail env
        { s with detachCount := s.detachCount + 1,
                 handlers := pre,
                 metaLog := s.metaLog ++ [⟨10,
                   "Successful removal of Windows Event Log Handler between switching logging methods",
                   pre⟩],
                 handler_removed := some h0.name } e2 (by simpa using hf) (by simpa using hctor)
      rw [hre]

end SwitchSpec

section InvPreservation

theorem inv_probeBump (s : LoggerState) (n : Nat) (hInv : Inv s) :
    Inv { s with probeCount := n } := by
  obtain ⟨pre, fo, hh, hpre, hfo, hsep⟩ := hInv.shape
  refine ⟨⟨pre, fo, hh, hpre, ?_, hsep⟩, hInv.fresh, hInv.level⟩
  rcases hfo with hfo | ⟨h0, hfo, hk, hn, ha, hflag⟩ | ⟨h0, hfo, hk, hn, ha, hflag⟩
  · exact Or.inl hfo
  · exact Or.inr (Or.inl ⟨h0, hfo, hk, hn, ha, hflag⟩)
  · exact Or.inr (Or.inr ⟨h0, hfo, hk, hn, ha, hflag⟩)

theorem inv_emitMeta (s : LoggerState) (n : Nat) (m : String) (hInv : Inv s) :
    Inv (emitMeta s n m) := by
  obtain ⟨pre, fo, hh, hpre, hfo, hsep⟩ := hInv.shape
  refine ⟨⟨pre, fo, hh, hpre, ?_, hsep⟩, hInv.fresh, hInv.level⟩
  rcases hfo with hfo | ⟨h0, hfo, hk, hn, ha, hflag⟩ | ⟨h0, hfo, hk, hn, ha, hflag⟩
  · exact Or.inl hfo
  · exact Or.inr (Or.inl ⟨h0, hfo, hk, hn, ha, hflag⟩)
  · exact Or.inr (Or.inr ⟨h0, hfo, hk, hn, ha, hflag⟩)

theorem switch_to_eventlog_inv (env : Env) (s : LoggerState) (e : String)
    (hd : detachOK env) (hInv : Inv s) :
    Inv ((switch_to_eventlog env s e).2)
      ∧ (switch_to_eventlog env s e).1 = Outcome.ok () := by
  by_cases hf : s.is_logging_to_eventlog = true
  · rw [switch_to_eventlog_noop env s e hf]
    exact ⟨hInv, rfl⟩
  · have hf' : s.is_logging_to_eventlog = false := by
      cases hflag : s.is_logging_to_eventlog
      · rfl
      · exact absurd hflag hf
    obtain ⟨pre, d, dc, hrm, lv, hsel, hpre, hfreshpre, hd10, heq⟩ :=
      switch_to_eventlog_spec env s e hd hInv hf'
    rw [heq]
    constructor
    · refine ⟨⟨pre, [⟨s.nextId, s.handler_base_name ++ "_EVT", HandlerKind.EVT, lv⟩],
        by simp, hpre, ?_, ?_⟩, ?_, ?_⟩
      · refine Or.inr (Or.inr ⟨⟨s.nextId, s.handler_base_name ++ "_EVT", HandlerKind.EVT, lv⟩,
          rfl, rfl, by simp, by simp, by simp⟩)
      · intro x hx y hy
        rcases List.mem_singleton.mp hy with rfl
        have := hfreshpre x hx
        simp only
        omega
      · intro h hx
        simp only [List.mem_append, List.mem_singleton] at hx
        rcases hx with hx | rfl
        · have := hfreshpre h hx
          simp only
          omega
        · simp only
          omega
      · exact ⟨lv, by simpa using hsel⟩
    · rfl

theorem switch_to_file_inv (env : Env) (s : LoggerState)
    (hd : detachOK env) (hInv : Inv s) :
    Inv ((switch_to_file env s).2)
      ∧ (switch_to_file env s).1 = Outcome.ok () := by
  by_cases hf : s.is_logging_to_eventlog = false
  · rw [switch_to_file_noop env s hf]
    exact ⟨hInv, rfl⟩
  · have hf' : s.is_logging_to_eventlog = true := by
      cases hflag : s.is_logging_to_eventlog
      · exact absurd hflag hf
      · rfl
    cases hctor : env.rfhCtor s.rfhCount with
    | ok u =>
        obtain ⟨pre, d, dc, hrm, lv, hsel, hpre, hfreshpre, hd10, heq⟩ :=
          switch_to_file_spec env s hd hInv hf' (by cases u; exact hctor)
        rw [heq]
        constructor
        · refine ⟨⟨pre, [⟨s.nextId, s.handler_base_name ++ "_RFH", HandlerKind.RFH, lv⟩],
            by simp, hpre, ?_, ?_⟩, ?_, ?_⟩
          · refine Or.inr (Or.inl ⟨⟨s.nextId, s.handler_base_name ++ "_RFH", HandlerKind.RFH, lv⟩,
              rfl, rfl, by simp, by simp, by simp⟩)
          · intro x hx y hy
            rcases List.mem_singleton.mp hy with rfl
            have := hfreshpre x hx
            simp only
            omega
          · intro h hx
            simp only [List.mem_append, List.mem_singleton] at hx
            rcases hx with hx | rfl
            · have := hfreshpre h hx
              simp only
              omega
            · simp only
              omega
          · exact ⟨lv, by simpa using hsel⟩
        · rfl
    | error e2 =>
        obtain ⟨pre, d, dc, hrm, hpre, hfreshpre, hd10, heq⟩ :=
          switch_to_file_ctorfail_spec env s e2 hd hInv hf' hctor
        rw [heq]
        constructor
        · refine ⟨⟨pre, [], by simp, hpre, Or.inl rfl, by intro x hx y hy; cases hy⟩, ?_, ?_⟩
          · intro h hx
            simp only at hx
            have := hfreshpre h hx
            simp only
            omega
          · exact hInv.level.imp (fun lv h => by simpa using h)
        · rfl

theorem check_file_access_inv (env : Env) (s : LoggerState)
    (hd : detachOK env) (hInv : Inv s) :
    Inv ((check_file_access env s).2)
      ∧ (check_file_access env s).1 = Outcome.ok () := by
  unfold check_file_access
  have hInv1 := inv_probeBump s (s.probeCount + 1) hInv
  cases env.probe s.probeCount with
  | ok u => exact switch_to_file_inv env _ hd hInv1
  | error e => exact switch_to_eventlog_inv env _ e hd hInv1

theorem getattr_call_inv (s : LoggerState) (l m : String) (hInv : Inv s) :
    Inv ((getattr_call s l m).2) := by
  unfold getattr_call
  cases logger_method_level l with
  | some n => exact inv_emitMeta s n m hInv
  | none =>
      by_cases hm : l ∈ logger_other_attributes
      · rw [if_pos hm]
        exact hInv
      · rw [if_neg hm]
        exact hInv

theorem log_inv (env : Env) (s : LoggerState) (l m : String)
    (hd : detachOK env) (hInv : Inv s) :
    Inv ((log env s l m).2) := by
  unfold log
  obtain ⟨hInv1, hok1⟩ := check_file_access_inv env s hd hInv
  rcases hc1 : check_file_access env s with ⟨o1, s1⟩
  rw [hc1] at hInv1 hok1
  simp only at hInv1 hok1
  subst hok1
  simp only
  have hInv2 := getattr_call_inv s1 l m hInv1
  rcases hg : getattr_call s1 l m with ⟨o2, s2⟩
  rw [hg] at hInv2
  simp only at hInv2
  simp only
  match o2 with
  | .ok u => exact (check_file_access_inv env s2 hd hInv2).1
  | .exn e => exact hInv2
  | .sysExit msg => exact hInv2

theorem runCalls_inv (env : Env) (hd : detachOK env) :
    ∀ (calls : List (String × String)) (s : LoggerState), Inv s →
      Inv ((runCalls env s calls).2) := by
  intro calls
  induction calls with
  | nil => intro s hInv; exact hInv
  | cons c rest ih =>
      intro s hInv
      obtain ⟨lvl, msg⟩ := c
      unfold runCalls
      have hInv1 := log_inv env s lvl msg hd hInv
      rcases hl : log env s lvl msg with ⟨o1, s1⟩
      rw [hl] at hInv1
      simp only at hInv1
      simp only
      match o1 with
      | .ok u => exact ih s1 hInv1
      | .exn e => exact hInv1
      | .sysExit msg2 => exact hInv1

end InvPreservation

section InitInv

theorem attach_event_handler_exn (s1 : LoggerState) (e : String)
    (hsel : select_log_lev (pyLower s1.logging_level) = none) :
    (attach_event_handler s1 e).1 = .exn (.keyError (pyLower s1.logging_level)) := by
  simp only [attach_event_handler, configure_handler]
  simp [hsel]

theorem switch_to_eventlog_invalid_level (env : Env) (s : LoggerState) (e : String)
    (hf : s.is_logging_to_eventlog = false)
    (hall : ∀ x ∈ s.handlers, x.kind = HandlerKind.STR)
    (hsel : select_log_lev (pyLower s.logging_level) = none) :
    (switch_to_eventlog env s e).1 = .exn (.keyError (pyLower s.logging_level)) := by
  have hb : ¬ s.is_logging_to_eventlog = true := by
    rw [hf]
    decide
  simp only [switch_to_eventlog]
  rw [if_neg hb, check_remove_not_found env s _ _ hall]
  simp only
  have hx := attach_event_handler_exn
    (emitMeta s 10 "No handlers found at time of switching logs") e
    (by simpa [emitMeta] using hsel)
  simpa [emitMeta] using hx

theorem configure_handler_some (s : LoggerState) (h : Handler) (l nm : String) (lv : Nat)
    (hsel : select_log_lev (pyLower l) = some lv) (hne : nm ≠ "") :
    configure_handler s h l nm
      = (.ok { h with name := nm, level := lv },
         addHandler s { h with name := nm, level := lv }) := by
  simp only [configure_handler]
  rw [hsel]
  simp [if_pos hne]

theorem configure_handler_none (s : LoggerState) (h : Handler) (l nm : String)
    (hsel : select_log_lev (pyLower l) = none) :
    configure_handler s h l nm = (.exn (.keyError (pyLower l)), s) := by
  simp only [configure_handler]
  rw [hsel]

theorem inv_of_no_handlers (s : LoggerState) (hh : s.handlers = [])
    (hlv : ∃ lv, select_log_lev (pyLower s.logging_level) = some lv) : Inv s := by
  refine ⟨⟨[], [], by simp [hh], Or.inl rfl, Or.inl rfl, ?_⟩, ?_, hlv⟩
  · intro x hx
    cases hx
  · intro x hx
    rw [hh] at hx
    cases hx

theorem inv_str_singleton (s : LoggerState) (h0 : Handler)
    (hh : s.handlers = [h0]) (hk : h0.kind = HandlerKind.STR)
    (hfr : h0.id < s.nextId)
    (hlv : ∃ lv, select_log_lev (pyLower s.logging_level) = some lv) : Inv s := by
  refine ⟨⟨[h0], [], by simp [hh], Or.inr ⟨h0, rfl, hk⟩, Or.inl rfl, ?_⟩, ?_, hlv⟩
  · intro x hx y hy
    cases hy
  · intro x hx
    rw [hh] at hx
    rcases List.mem_singleton.mp hx with rfl
    exact hfr

theorem init_ok_inv (env : Env)
    (log_file_path log_file_base_filename logger_name logging_level : String)
    (debug_in_stream add_datetime_to_log_filname : Bool) (now : String)
    (s0 : LoggerState) (hd : detachOK env)
    (h : init env log_file_path log_file_base_filename logger_name logging_level
      debug_in_stream add_datetime_to_log_filname now = .ok s0) :
    Inv s0 := by
  unfold init at h
  simp only [] at h
  generalize hS : init_state log_file_path logger_name (pyLower logging_level)
    (init_filename log_file_path (splitext log_file_base_filename).1
      (splitext log_file_base_filename).2 now add_datetime_to_log_filname) = S at h
  have hSh : S.handlers = [] := by rw [← hS]; rfl
  have hSl : S.logging_level = pyLower logging_level := by rw [← hS]; rfl
  have hSn : S.handler_base_name = logger_name := by rw [← hS]; rfl
  have hSflag : S.is_logging_to_eventlog = false := by rw [← hS]; rfl
  have hSid : S.nextId = 0 := by rw [← hS]; rfl
  cases debug_in_stream with
  | false =>
      simp only [Bool.false_eq_true, if_false] at h
      rcases hctor : env.rfhCtor S.rfhCount with e2 | u
      · rw [hctor] at h
        simp only at h
        by_cases hsel : select_log_lev (pyLower (pyLower logging_level)) = none
        · have hx := switch_to_eventlog_invalid_level env
            { S with rfhCount := S.rfhCount + 1 } init_failure_error_data
            (by simpa using hSflag) (by simp [hSh]) (by simpa [hSl] using hsel)
          rcases hsw : switch_to_eventlog env { S with rfhCount := S.rfhCount + 1 }
              init_failure_error_data with ⟨o3, s3⟩
          rw [hsw] at h hx
          simp only at hx
          subst hx
          simp at h
        · obtain ⟨lv, hlv⟩ : ∃ lv, select_log_lev (pyLower (pyLower logging_level)) = some lv := by
            rcases hval : select_log_lev (pyLower (pyLower logging_level)) with _ | lv
            · exact absurd hval hsel
            · exact ⟨lv, rfl⟩
          have hInvS2 : Inv { S with rfhCount := S.rfhCount + 1 } :=
            inv_of_no_handlers _ (by simpa using hSh) ⟨lv, by simpa [hSl] using hlv⟩
          obtain ⟨hInvSw, hokSw⟩ := switch_to_eventlog_inv env
            { S with rfhCount := S.rfhCount + 1 } init_failure_error_data hd hInvS2
          rcases hsw : switch_to_eventlog env { S with rfhCount := S.rfhCount + 1 }
              init_failure_error_data with ⟨o3, s3⟩
          rw [hsw] at h hInvSw hokSw
          simp only at h hInvSw hokSw
          subst hokSw
          simp only at h
          injection h with h2
          rw [← h2]
          exact hInvSw
      · rw [hctor] at h
        simp only at h
        split at h
        · exact absurd h (by simp)
        · exact absurd h (by simp)
        · rename_i fh2 s4 heq
          rcases hval : select_log_lev (pyLower S.logging_level) with _ | lv
          · rw [configure_handler_none _ _ _ _ hval] at heq
            simp at heq
          · rw [configure_handler_some _ _ _ _ lv hval
              (append_ne_empty_of_right _ "_RFH" (by decide))] at heq
            simp only [Prod.mk.injEq] at heq
            obtain ⟨heq1, heq2⟩ := heq
            injection heq1 with heq1
            subst heq1
            subst heq2
            simp only [addHandler, hSh] at h
            simp only [List.any_nil, Bool.false_eq_true, if_false, List.nil_append] at h
            injection h with h2
            rw [← h2]
            refine ⟨⟨[], [⟨S.nextId, S.handler_base_name ++ "_RFH", HandlerKind.RFH, lv⟩],
              by simp, Or.inl rfl, ?_, ?_⟩, ?_, ?_⟩
            · refine Or.inr (Or.inl ⟨⟨S.nextId, S.handler_base_name ++ "_RFH",
                HandlerKind.RFH, lv⟩, rfl, rfl, by simp, by simp, by simpa using hSflag⟩)
            · intro x hx
              cases hx
            · intro x hx
              simp only [List.nil_append, List.mem_singleton] at hx
              subst hx
              simp
            · exact ⟨lv, by simpa using hval⟩
  | true =>
      simp only [if_true] at h
      rw [configure_handler_some _ _ _ _ 10 (by decide)
        (append_ne_empty_of_right _ "_STR" (by decide))] at h
      simp only [addHandler, hSh] at h
      simp only [List.any_nil, Bool.false_eq_true, if_false, List.nil_append] at h
      rcases hctor : env.rfhCtor S.rfhCount with e2 | u
      · rw [hctor] at h
        simp only at h
        by_cases hsel : select_log_lev (pyLower (pyLower logging_level)) = none
        · have hx := switch_to_eventlog_invalid_level env
            { S with
              nextId := S.nextId + 1,
              handlers := [⟨S.nextId, S.handler_base_name ++ "_STR", HandlerKind.STR, 10⟩],
              rfhCount := S.rfhCount + 1 } init_failure_error_data
            (by simpa using hSflag) (by simp) (by simpa [hSl] using hsel)
          rcases hsw : switch_to_eventlog env
              { S with
                nextId := S.nextId + 1,
                handlers := [⟨S.nextId, S.handler_base_name ++ "_STR", HandlerKind.STR, 10⟩],
                rfhCount := S.rfhCount + 1 } init_failure_error_data with ⟨o3, s3⟩
          rw [hsw] at h hx
          simp only at hx
          subst hx
          simp at h
        · obtain ⟨lv, hlv⟩ : ∃ lv, select_log_lev (pyLower (pyLower logging_level)) = some lv := by
            rcases hval : select_log_lev (pyLower (pyLower logging_level)) with _ | lv
            · exact absurd hval hsel
            · exact ⟨lv, rfl⟩
          have hInvS2 : Inv { S with
              nextId := S.nextId + 1,
              handlers := [⟨S.nextId, S.handler_base_name ++ "_STR", HandlerKind.STR, 10⟩],
              rfhCount := S.rfhCount + 1 } :=
            inv_str_singleton _ ⟨S.nextId, S.handler_base_name ++ "_STR", HandlerKind.STR, 10⟩
              (by simp) rfl (by simp) ⟨lv, by simpa [hSl] using hlv⟩
          obtain ⟨hInvSw, hokSw⟩ := switch_to_eventlog_inv env
            { S with
              nextId := S.nextId + 1,
              handlers := [⟨S.nextId, S.handler_base_name ++ "_STR", HandlerKind.STR, 10⟩],
              rfhCount := S.rfhCount + 1 } init_failure_error_data hd hInvS2
          rcases hsw : switch_to_eventlog env
              { S with
                nextId := S.nextId + 1,
                handlers := [⟨S.nextId, S.handler_base_name ++ "_STR", HandlerKind.STR, 10⟩],
                rfhCount := S.rfhCount + 1 } init_failure_error_data with ⟨o3, s3⟩
          rw [hsw] at h hInvSw hokSw
          simp only at h hInvSw hokSw
          subst hokSw
          simp only at h
          injection h with h2
          rw [← h2]
          exact hInvSw
      · rw [hctor] at h
        simp only at h
        split at h
        · exact absurd h (by simp)
        · exact absurd h (by simp)
        · rename_i fh2 s4 heq
          rcases hval : select_log_lev (pyLower S.logging_level) with _ | lv
          · rw [configure_handler_none _ _ _ _ hval] at heq
            simp at heq
          · rw [configure_handler_some _ _ _ _ lv hval
              (append_ne_empty_of_right _ "_RFH" (by decide))] at heq
            simp only [Prod.mk.injEq] at heq
            obtain ⟨heq1, heq2⟩ := heq
            injection heq1 with heq1
            subst heq1
            subst heq2
            simp only [addHandler] at h
            have hany : ([(⟨S.nextId, S.handler_base_name ++ "_STR", HandlerKind.STR, 10⟩ : Handler)].any
                fun x => x.id == S.nextId + 1) = false := by
              simp only [List.any_cons, List.any_nil, Bool.or_false]
              rw [beq_eq_false_iff_ne]
              omega
            rw [hany] at h
            simp only [Bool.false_eq_true, if_false] at h
            injection h with h2
            rw [← h2]
            refine ⟨⟨[⟨S.nextId, S.handler_base_name ++ "_STR", HandlerKind.STR, 10⟩],
              [⟨S.nextId + 1, S.handler_base_name ++ "_RFH", HandlerKind.RFH, lv⟩],
              by simp, Or.inr ⟨_, rfl, rfl⟩, ?_, ?_⟩, ?_, ?_⟩
            · refine Or.inr (Or.inl ⟨⟨S.nextId + 1, S.handler_base_name ++ "_RFH",
                HandlerKind.RFH, lv⟩, rfl, rfl, by simp, by simp, by simpa using hSflag⟩)
            · intro x hx y hy
              rcases List.mem_singleton.mp hx with rfl
              rcases List.mem_singleton.mp hy with rfl
              simp only
              omega
            · intro x hx
              simp only [List.cons_append, List.nil_append, List.mem_cons,
                List.mem_singleton, List.not_mem_nil, or_false] at hx
              rcases hx with rfl | rfl
              · simp only
                omega
              · simp only
                omega
            · exact ⟨lv, by simpa using hval⟩

end InitInv

theorem countKind_le_one (s : LoggerState) (hInv : Inv s) (k : HandlerKind)
    (hk : k ≠ HandlerKind.STR) : countKind s k ≤ 1 := by
  obtain ⟨pre, fo, hh, hpre, hfo, -⟩ := hInv.shape
  have hpre' := strPart_kinds pre hpre
  unfold countKind
  rw [hh, List.filter_append]
  have h1 : pre.filter (fun h => h.kind == k) = [] := by
    rw [List.filter_eq_nil_iff]
    intro a ha
    have hstr := hpre' a ha
    simp only [hstr, beq_iff_eq]
    intro hcon
    exact hk hcon.symm
  rw [h1, List.nil_append]
  have h2 : fo.length ≤ 1 := by
    rcases hfo with rfl | ⟨h0, rfl, -⟩ | ⟨h0, rfl, -⟩ <;> simp
  exact le_trans (List.length_filter_le _ _) h2

/-- C2: for any sequence of log calls and any file-availability outcomes induced
by the oracle (probe and reconstruction results arbitrary; the underlying
detach does not raise, which is the behaviour of Logger.removeHandler — a
simulated removal failure is the separate fatal condition of C5), starting from
any successfully constructed session, at every observation point — after
construction and after every prefix of calls — at most one rotating-file (FILE)
handler and at most one event-log (EVENT) handler are attached to the logger. -/
theorem c2_at_most_one_handler_per_kind (env : Env)
    (log_file_path log_file_base_filename logger_name logging_level : String)
    (debug_in_stream add_datetime_to_log_filname : Bool) (now : String)
    (s0 : LoggerState) (calls : List (String × String)) (k : Nat)
    (hd : detachOK env)
    (hinit : init env log_file_path log_file_base_filename logger_name logging_level
      debug_in_stream add_datetime_to_log_filname now = .ok s0) :
    countKind ((runCalls env s0 (calls.take k)).2) HandlerKind.RFH ≤ 1
      ∧ countKind ((runCalls env s0 (calls.take k)).2) HandlerKind.EVT ≤ 1 := by
  have hInv0 := init_ok_inv env log_file_path log_file_base_filename logger_name
    logging_level debug_in_stream add_datetime_to_log_filname now s0 hd hinit
  have hInvk := runCalls_inv env hd (calls.take k) s0 hInv0
  exact ⟨countKind_le_one _ hInvk _ (by decide), countKind_le_one _ hInvk _ (by decide)⟩

theorem c2_at_most_one_handler_per_kind_witness :
    countKind ((runCalls envAllOK initAllOK ([(("info" : String), ("a" : String))].take 1)).2)
        HandlerKind.RFH ≤ 1
      ∧ countKind ((runCalls envAllOK initAllOK ([(("info" : String), ("a" : String))].take 1)).2)
        HandlerKind.EVT ≤ 1 :=
  c2_at_most_one_handler_per_kind envAllOK "D:/logs" "app" "myapp" "w" false false
    "2026-01-01_00-00-00" initAllOK [("info", "a")] 1 (fun _ => rfl) (by decide)

section FatalSpec

theorem remove_loop_ne_exit (env : Env) (nm ty : String) :
    ∀ (l : List Handler) (s : LoggerState),
      ((remove_handler_loop env nm ty l s).1).isExit = false := by
  intro l
  induction l with
  | nil => intro s; rfl
  | cons h rest ih =>
      intro s
      simp only [remove_handler_loop]
      by_cases h1 : h.kind = HandlerKind.RFH ∧ h.name = nm
      · rw [if_pos h1]
        cases hfh : s.file_handler with
        | none =>
            simp only [remove_handler_except_block]
            split <;> rfl
        | some fh =>
            cases hd2 : env.detach s.detachCount with
            | error e =>
                simp only [removeHandler, hd2]
                simp only [remove_handler_except_block]
                split <;> rfl
            | ok u => simp only [removeHandler, hd2]; rfl
      · rw [if_neg h1]
        by_cases h2 : h.kind = HandlerKind.EVT ∧ h.name = nm
        · rw [if_pos h2]
          cases heh : s.event_handler with
          | none =>
              simp only [remove_handler_except_block]
              split <;> rfl
          | some eh =>
              cases hd2 : env.detach s.detachCount with
              | error e =>
                  simp only [removeHandler, hd2]
                  simp only [remove_handler_except_block]
                  split <;> rfl
              | ok u => simp only [removeHandler, hd2]; rfl
        · rw [if_neg h2]
          exact ih s

theorem configure_handler_ne_exit (s : LoggerState) (h : Handler) (l nm : String) :
    ((configure_handler s h l nm).1).isExit = false := by
  simp only [configure_handler]
  split <;> rfl

theorem attach_event_handler_ne_exit (s1 : LoggerState) (e : String) :
    ((attach_event_handler s1 e).1).isExit = false := by
  simp only [attach_event_handler]
  split
  · rfl
  · rename_i m s3 heq
    have h2 := congrArg (fun p => (p.1).isExit) heq
    simp only at h2
    rw [configure_handler_ne_exit] at h2
    simp [Outcome.isExit] at h2
  · rfl

theorem reattach_file_handler_ne_exit (env : Env) (s1 : LoggerState)
    (hflag : s1.is_logging_to_eventlog = true) :
    ((reattach_file_handler env s1).1).isExit = false := by
  simp only [reattach_file_handler]
  cases hc : env.rfhCtor s1.rfhCount with
  | error e =>
      simp only
      rw [switch_to_eventlog_noop env { s1 with rfhCount := s1.rfhCount + 1 } _
        (by simpa using hflag)]
      rfl
  | ok u =>
      simp only
      split
      · rfl
      · rename_i m s5 heq
        have h2 := congrArg (fun p => (p.1).isExit) heq
        simp only at h2
        rw [configure_handler_ne_exit] at h2
        simp [Outcome.isExit] at h2
      · rfl

theorem switch_to_eventlog_fatal_iff (env : Env) (s : LoggerState) (e : String)
    (fh : Handler) (hfh : s.file_handler = some fh) :
    (((switch_to_eventlog env s e).1).isExit = true ↔
       s.is_logging_to_eventlog = false
         ∧ (check_for_and_remove_handler_of_specified_type env s
             (s.handler_base_name ++ "_RFH") "rfh").1 = .ok .removal_failed)
    ∧ (((switch_to_eventlog env s e).1).isExit = true →
        (switch_to_eventlog env s e).2.popups
            = s.popups ++ [("File copy logging failure", fatal_popup_message)]
          ∧ (switch_to_eventlog env s e).2.metaLog
              = (check_for_and_remove_handler_of_specified_type env s
                  (s.handler_base_name ++ "_RFH") "rfh").2.metaLog
          ∧ (switch_to_eventlog env s e).2.evtLog
              = (check_for_and_remove_handler_of_specified_type env s
                  (s.handler_base_name ++ "_RFH") "rfh").2.evtLog) := by
  by_cases hflag : s.is_logging_to_eventlog = true
  · rw [switch_to_eventlog_noop env s e hflag]
    constructor
    · constructor
      · intro hx
        cases hx
      · rintro ⟨hc, -⟩
        rw [hflag] at hc
        cases hc
    · intro hx
      cases hx
  · have hf' : s.is_logging_to_eventlog = false := by
      cases hflag2 : s.is_logging_to_eventlog
      · rfl
      · exact absurd hflag2 hflag
    have hframe := check_for_and_remove_frame env s (s.handler_base_name ++ "_RFH") "rfh"
    have hnoexit := remove_loop_ne_exit env (s.handler_base_name ++ "_RFH") "rfh" s.handlers s
    rcases hr : check_for_and_remove_handler_of_specified_type env s
        (s.handler_base_name ++ "_RFH") "rfh" with ⟨r1, t1⟩
    rw [hr] at hframe
    have hnoexit2 : r1.isExit = false := by
      have : (check_for_and_remove_handler_of_specified_type env s
          (s.handler_base_name ++ "_RFH") "rfh").1.isExit = false := hnoexit
      rw [hr] at this
      exact this
    have ht1fh : t1.file_handler = some fh := by
      rw [hframe.2.2.2.2.2.2.2.2.2.2.1]
      exact hfh
    simp only [switch_to_eventlog]
    rw [if_neg hflag, hr]
    match r1 with
    | .sysExit m => cases hnoexit2
    | .exn (.keyError w) =>
        refine ⟨⟨(fun hx => by cases hx), ?_⟩, (fun hx => by cases hx)⟩
        rintro ⟨-, hc⟩
        cases hc
    | .exn (.typeError w) =>
        refine ⟨⟨(fun hx => by cases hx), ?_⟩, (fun hx => by cases hx)⟩
        rintro ⟨-, hc⟩
        cases hc
    | .exn (.attributeError w) =>
        simp only
        refine ⟨⟨fun hx => ?_, ?_⟩, fun hx => ?_⟩
        · rw [attach_event_handler_ne_exit] at hx
          cases hx
        · rintro ⟨-, hc⟩
          cases hc
        · rw [attach_event_handler_ne_exit] at hx
          cases hx
    | .ok .no_handlers_found =>
        simp only
        refine ⟨⟨fun hx => ?_, ?_⟩, fun hx => ?_⟩
        · rw [attach_event_handler_ne_exit] at hx
          cases hx
        · rintro ⟨-, hc⟩
          cases hc
        · rw [attach_event_handler_ne_exit] at hx
          cases hx
    | .ok .removal_success =>
        simp only
        refine ⟨⟨fun hx => ?_, ?_⟩, fun hx => ?_⟩
        · rw [attach_event_handler_ne_exit] at hx
          cases hx
        · rintro ⟨-, hc⟩
          cases hc
        · rw [attach_event_handler_ne_exit] at hx
          cases hx
    | .ok .removal_failed =>
        simp only [fatal_escalation, ht1fh]
        refine ⟨⟨(fun _ => ⟨hf', by trivial⟩), (fun _ => by trivial)⟩,
          (fun _ => ⟨?_, by trivial, by trivial⟩)⟩
        rw [hframe.2.2.2.2.2.1]

theorem switch_to_file_fatal_iff (env : Env) (s : LoggerState)
    (eh : Handler) (heh : s.event_handler = some eh) :
    (((switch_to_file env s).1).isExit = true ↔
       s.is_logging_to_eventlog = true
         ∧ (check_for_and_remove_handler_of_specified_type env s
             (s.handler_base_name ++ "_EVT") "evt").1 = .ok .removal_failed)
    ∧ (((switch_to_file env s).1).isExit = true →
        (switch_to_file env s).2.popups
            = s.popups ++ [("File copy logging failure", fatal_popup_message)]
          ∧ (switch_to_file env s).2.metaLog
              = (check_for_and_remove_handler_of_specified_type env s
                  (s.handler_base_name ++ "_EVT") "evt").2.metaLog
          ∧ (switch_to_file env s).2.evtLog
              = (check_for_and_remove_handler_of_specified_type env s
                  (s.handler_base_name ++ "_EVT") "evt").2.evtLog) := by
  by_cases hflag : s.is_logging_to_eventlog = false
  · rw [switch_to_file_noop env s hflag]
    constructor
    · constructor
      · intro hx
        cases hx
      · rintro ⟨hc, -⟩
        rw [hflag] at hc
        cases hc
    · intro hx
      cases hx
  · have hf' : s.is_logging_to_eventlog = true := by
      cases hflag2 : s.is_logging_to_eventlog
      · exact absurd hflag2 hflag
      · rfl
    have hframe := check_for_and_remove_frame env s (s.handler_base_name ++ "_EVT") "evt"
    have hnoexit := remove_loop_ne_exit env (s.handler_base_name ++ "_EVT") "evt" s.handlers s
    rcases hr : check_for_and_remove_handler_of_specified_type env s
        (s.handler_base_name ++ "_EVT") "evt" with ⟨r1, t1⟩
    rw [hr] at hframe
    have hnoexit2 : r1.isExit = false := by
      have : (check_for_and_remove_handler_of_specified_type env s
          (s.handler_base_name ++ "_EVT") "evt").1.isExit = false := hnoexit
      rw [hr] at this
      exact this
    have ht1eh : t1.event_handler = some eh := by
      rw [hframe.2.2.2.2.2.2.2.2.2.2.2]
      exact heh
    have ht1flag : t1.is_logging_to_eventlog = true := by
      rw [hframe.2.2.2.2.2.2.2.2.2.1]
      exact hf'
    simp only [switch_to_file]
    rw [if_neg hflag, hr]
    match r1 with
    | .sysExit m => cases hnoexit2
    | .exn (.keyError w) =>
        refine ⟨⟨(fun hx => by cases hx), ?_⟩, (fun hx => by cases hx)⟩
        rintro ⟨-, hc⟩
        cases hc
    | .exn (.typeError w) =>
        refine ⟨⟨(fun hx => by cases hx), ?_⟩, (fun hx => by cases hx)⟩
        rintro ⟨-, hc⟩
        cases hc
    | .exn (.attributeError w) =>
        simp only
        refine ⟨⟨fun hx => ?_, ?_⟩, fun hx => ?_⟩
        · rw [reattach_file_handler_ne_exit env t1 ht1flag] at hx
          cases hx
        · rintro ⟨-, hc⟩
          cases hc
        · rw [reattach_file_handler_ne_exit env t1 ht1flag] at hx
          cases hx
    | .ok .no_handlers_found =>
        simp only
        refine ⟨⟨fun hx => ?_, ?_⟩, fun hx => ?_⟩
        · rw [reattach_file_handler_ne_exit env t1 ht1flag] at hx
          cases hx
        · rintro ⟨-, hc⟩
          cases hc
        · rw [reattach_file_handler_ne_exit env t1 ht1flag] at hx
          cases hx
    | .ok .removal_success =>
        simp only
        refine ⟨⟨fun hx => ?_, ?_⟩, fun hx => ?_⟩
        · rw [reattach_file_handler_ne_exit env t1 ht1flag] at hx
          cases hx
        · rintro ⟨-, hc⟩
          cases hc
        · rw [reattach_file_handler_ne_exit env t1 ht1flag] at hx
          cases hx
    | .ok .removal_failed =>
        simp only [fatal_escalation, ht1eh]
        refine ⟨⟨(fun _ => ⟨hf', by trivial⟩), (fun _ => by trivial)⟩,
          (fun _ => ⟨?_, by trivial, by trivial⟩)⟩
        rw [hframe.2.2.2.2.2.1]

end FatalSpec

section MetaLogMono

theorem emitMeta_metaLog_mono (s : LoggerState) (n : Nat) (m : String) :
    s.metaLog <+: (emitMeta s n m).metaLog := by
  simp only [emitMeta]
  exact ⟨[⟨n, m, s.handlers⟩], rfl⟩

theorem remove_loop_metaLog_mono (env : Env) (nm ty : String) :
    ∀ (l : List Handler) (s : LoggerState),
      s.metaLog <+: (remove_handler_loop env nm ty l s).2.metaLog := by
  intro l
  induction l with
  | nil =>
      intro s
      simp only [remove_handler_loop]
      exact emitMeta_metaLog_mono s 10 _
  | cons h rest ih =>
      intro s
      simp only [remove_handler_loop]
      by_cases h1 : h.kind = HandlerKind.RFH ∧ h.name = nm
      · rw [if_pos h1]
        cases hfh : s.file_handler with
        | none =>
            simp only [remove_handler_except_block]
            split
            · exact List.prefix_refl _
            · simp only [emitMeta, output_evtlog]
              exact ⟨_, rfl⟩
        | some fh =>
            cases hd2 : env.detach s.detachCount with
            | error e =>
                simp only [removeHandler, hd2]
                simp only [remove_handler_except_block]
                split
                · exact List.prefix_refl _
                · simp only [emitMeta, output_evtlog]
                  exact ⟨_, rfl⟩
            | ok u =>
                simp only [removeHandler, hd2]
                simp only [emitMeta]
                exact ⟨_, rfl⟩
      · rw [if_neg h1]
        by_cases h2 : h.kind = HandlerKind.EVT ∧ h.name = nm
        · rw [if_pos h2]
          cases heh : s.event_handler with
          | none =>
              simp only [remove_handler_except_block]
              split
              · exact List.prefix_refl _
              · simp only [emitMeta, output_evtlog]
                exact ⟨_, rfl⟩
          | some eh =>
              cases hd2 : env.detach s.detachCount with
              | error e =>
                  simp only [removeHandler, hd2]
                  simp only [remove_handler_except_block]
                  split
                  · exact List.prefix_refl _
                  · simp only [emitMeta, output_evtlog]
                    exact ⟨_, rfl⟩
              | ok u =>
                  simp only [removeHandler, hd2]
                  simp only [emitMeta]
                  exact ⟨_, rfl⟩
        · rw [if_neg h2]
          exact ih s

theorem configure_handler_metaLog (s : LoggerState) (h : Handler) (l n : String) :
    ((configure_handler s h l n).2).metaLog = s.metaLog := by
  simp only [configure_handler, addHandler]
  repeat' split
  all_goals rfl

theorem attach_event_handler_metaLog_mono (s1 : LoggerState) (e : String) :
    s1.metaLog <+: (attach_event_handler s1 e).2.metaLog := by
  simp only [attach_event_handler]
  split
  all_goals rename_i x s3 heq
  · have h2 := congrArg (fun p => (p.2).metaLog) heq
    simp only [] at h2
    rw [configure_handler_metaLog] at h2
    have h3 : s1.metaLog = s3.metaLog := h2
    rw [h3]
  · have h2 := congrArg (fun p => (p.2).metaLog) heq
    simp only [] at h2
    rw [configure_handler_metaLog] at h2
    have h3 : s1.metaLog = s3.metaLog := h2
    rw [h3]
  · have h2 := congrArg (fun p => (p.2).metaLog) heq
    simp only [] at h2
    rw [configure_handler_metaLog] at h2
    have h3 : s1.metaLog = s3.metaLog := h2
    refine List.IsPrefix.trans (show s1.metaLog <+: s3.metaLog by rw [h3]) ?_
    exact List.prefix_append _ _

theorem switch_to_eventlog_metaLog_mono (env : Env) (s : LoggerState) (e : String) :
    s.metaLog <+: (switch_to_eventlog env s e).2.metaLog := by
  unfold switch_to_eventlog
  by_cases hb : s.is_logging_to_eventlog = true
  · rw [if_pos hb]
  · rw [if_neg hb]
    have hrm := remove_loop_metaLog_mono env (s.handler_base_name ++ "_RFH") "rfh" s.handlers s
    rcases hr : check_for_and_remove_handler_of_specified_type env s
        (s.handler_base_name ++ "_RFH") "rfh" with ⟨r1, t1⟩
    have ht1 : s.metaLog <+: t1.metaLog := by
      have : s.metaLog <+: (check_for_and_remove_handler_of_specified_type env s
          (s.handler_base_name ++ "_RFH") "rfh").2.metaLog := hrm
      rw [hr] at this
      exact this
    match r1 with
    | .sysExit m => simpa [hr] using ht1
    | .exn (.keyError w) => simpa [hr] using ht1
    | .exn (.typeError w) => simpa [hr] using ht1
    | .ok .removal_failed =>
        simp only [hr, fatal_escalation]
        split <;> exact ht1
    | .exn (.attributeError w) =>
        simp only [hr]
        exact ht1.trans (attach_event_handler_metaLog_mono t1 e)
    | .ok .no_handlers_found =>
        simp only [hr]
        exact ht1.trans (attach_event_handler_metaLog_mono t1 e)
    | .ok .removal_success =>
        simp only [hr]
        exact ht1.trans (attach_event_handler_metaLog_mono t1 e)

theorem reattach_file_handler_metaLog_mono (env : Env) (s1 : LoggerState) :
    s1.metaLog <+: (reattach_file_handler env s1).2.metaLog := by
  simp only [reattach_file_handler]
  split
  · exact switch_to_eventlog_metaLog_mono env
      { s1 with rfhCount := s1.rfhCount + 1 } _
  · split
    all_goals rename_i x s5 heq
    · have h2 := congrArg (fun p => (p.2).metaLog) heq
      simp only [] at h2
      rw [configure_handler_metaLog] at h2
      have h3 : s1.metaLog = s5.metaLog := h2
      rw [h3]
    · have h2 := congrArg (fun p => (p.2).metaLog) heq
      simp only [] at h2
      rw [configure_handler_metaLog] at h2
      have h3 : s1.metaLog = s5.metaLog := h2
      rw [h3]
    · have h2 := congrArg (fun p => (p.2).metaLog) heq
      simp only [] at h2
      rw [configure_handler_metaLog] at h2
      have h3 : s1.metaLog = s5.metaLog := h2
      refine List.IsPrefix.trans (show s1.metaLog <+: s5.metaLog by rw [h3]) ?_
      exact List.prefix_append _ _

theorem switch_to_file_metaLog_mono (env : Env) (s : LoggerState) :
    s.metaLog <+: (switch_to_file env s).2.metaLog := by
  unfold switch_to_file
  by_cases hb : s.is_logging_to_eventlog = false
  · rw [if_pos hb]
  · rw [if_neg hb]
    have hrm := remove_loop_metaLog_mono env (s.handler_base_name ++ "_EVT") "evt" s.handlers s
    rcases hr : check_for_and_remove_handler_of_specified_type env s
        (s.handler_base_name ++ "_EVT") "evt" with ⟨r1, t1⟩
    have ht1 : s.metaLog <+: t1.metaLog := by
      have : s.metaLog <+: (check_for_and_remove_handler_of_specified_type env s
          (s.handler_base_name ++ "_EVT") "evt").2.metaLog := hrm
      rw [hr] at this
      exact this
    match r1 with
    | .sysExit m => simpa [hr] using ht1
    | .exn (.keyError w) => simpa [hr] using ht1
    | .exn (.typeError w) => simpa [hr] using ht1
    | .ok .removal_failed =>
        simp only [hr, fatal_escalation]
        split <;> exact ht1
    | .exn (.attributeError w) =>
        simp only [hr]
        exact ht1.trans (reattach_file_handler_metaLog_mono env t1)
    | .ok .no_handlers_found =>
        simp only [hr]
        exact ht1.trans (reattach_file_handler_metaLog_mono env t1)
    | .ok .removal_success =>
        simp only [hr]
        exact ht1.trans (reattach_file_handler_metaLog_mono env t1)

theorem check_file_access_metaLog_mono (env : Env) (s : LoggerState) :
    s.metaLog <+: (check_file_access env s).2.metaLog := by
  show s.metaLog <+: ((match env.probe s.probeCount with
    | .ok _ => switch_to_file env { s with probeCount := s.probeCount + 1 }
    | .error e => switch_to_eventlog env { s with probeCount := s.probeCount + 1 } e).2).metaLog
  cases env.probe s.probeCount with
  | ok u =>
      exact switch_to_file_metaLog_mono env { s with probeCount := s.probeCount + 1 }
  | error e =>
      exact switch_to_eventlog_metaLog_mono env { s with probeCount := s.probeCount + 1 } e

end MetaLogMono

section RemovalStatus

theorem remove_not_found_iff (env : Env) (nm ty : String) :
    ∀ (l : List Handler) (s : LoggerState),
      ((remove_handler_loop env nm ty l s).1 = .ok .no_handlers_found ↔
        ∀ h ∈ l, ¬((h.kind = HandlerKind.RFH ∧ h.name = nm)
          ∨ (h.kind = HandlerKind.EVT ∧ h.name = nm))) := by
  intro l
  induction l with
  | nil =>
      intro s
      simp only [remove_handler_loop]
      constructor
      · intro _ h hmem
        cases hmem
      · intro _
        trivial
  | cons h rest ih =>
      intro s
      simp only [remove_handler_loop]
      by_cases h1 : h.kind = HandlerKind.RFH ∧ h.name = nm
      · rw [if_pos h1]
        have hne : ¬(∀ x ∈ h :: rest,
            ¬((x.kind = HandlerKind.RFH ∧ x.name = nm)
              ∨ (x.kind = HandlerKind.EVT ∧ x.name = nm))) := by
          intro hall
          exact hall h (List.mem_cons_self h rest) (Or.inl h1)
        cases hfh : s.file_handler with
        | none =>
            simp only [remove_handler_except_block]
            split
            · exact ⟨(fun hx => by cases hx), fun hx => absurd hx hne⟩
            · exact ⟨(fun hx => by cases hx), fun hx => absurd hx hne⟩
        | some fh =>
            cases hd2 : env.detach s.detachCount with
            | error e =>
                simp only [removeHandler, hd2]
                simp only [remove_handler_except_block]
                split
                · exact ⟨(fun hx => by cases hx), fun hx => absurd hx hne⟩
                · exact ⟨(fun hx => by cases hx), fun hx => absurd hx hne⟩
            | ok u =>
                simp only [removeHandler, hd2]
                exact ⟨(fun hx => by cases hx), fun hx => absurd hx hne⟩
      · rw [if_neg h1]
        by_cases h2 : h.kind = HandlerKind.EVT ∧ h.name = nm
        · rw [if_pos h2]
          have hne : ¬(∀ x ∈ h :: rest,
              ¬((x.kind = HandlerKind.RFH ∧ x.name = nm)
                ∨ (x.kind = HandlerKind.EVT ∧ x.name = nm))) := by
            intro hall
            exact hall h (List.mem_cons_self h rest) (Or.inr h2)
          cases heh : s.event_handler with
          | none =>
              simp only [remove_handler_except_block]
              split
              · exact ⟨(fun hx => by cases hx), fun hx => absurd hx hne⟩
              · exact ⟨(fun hx => by cases hx), fun hx => absurd hx hne⟩
          | some eh =>
              cases hd2 : env.detach s.detachCount with
              | error e =>
                  simp only [removeHandler, hd2]
                  simp only [remove_handler_except_block]
                  split
                  · exact ⟨(fun hx => by cases hx), fun hx => absurd hx hne⟩
                  · exact ⟨(fun hx => by cases hx), fun hx => absurd hx hne⟩
              | ok u =>
                  simp only [removeHandler, hd2]
                  exact ⟨(fun hx => by cases hx), fun hx => absurd hx hne⟩
        · rw [if_neg h2]
          constructor
          · intro hx x hmem
            rcases List.mem_cons.mp hmem with rfl | hmem2
            · intro hcon
              rcases hcon with hcon | hcon
              · exact h1 hcon
              · exact h2 hcon
            · exact ((ih s).mp hx) x hmem2
          · intro hall
            exact (ih s).mpr (fun x hx => hall x (List.mem_cons_of_mem h hx))

theorem remove_failed_implies_detach_error (env : Env) (nm ty : String)
    (fh eh : Handler) :
    ∀ (l : List Handler) (s : LoggerState),
      s.file_handler = some fh → s.event_handler = some eh →
      (remove_handler_loop env nm ty l s).1 = .ok .removal_failed →
      ∃ err, env.detach s.detachCount = .error err := by
  intro l
  induction l with
  | nil =>
      intro s _ _ hx
      cases hx
  | cons h rest ih =>
      intro s hfh heh
      simp only [remove_handler_loop]
      by_cases h1 : h.kind = HandlerKind.RFH ∧ h.name = nm
      · rw [if_pos h1, hfh]
        cases hd2 : env.detach s.detachCount with
        | error e =>
            intro _
            exact ⟨e, rfl⟩
        | ok u =>
            simp only [removeHandler, hd2]
            intro hx
            cases hx
      · rw [if_neg h1]
        by_cases h2 : h.kind = HandlerKind.EVT ∧ h.name = nm
        · rw [if_pos h2, heh]
          cases hd2 : env.detach s.detachCount with
          | error e =>
              intro _
              exact ⟨e, rfl⟩
          | ok u =>
              simp only [removeHandler, hd2]
              intro hx
              cases hx
        · rw [if_neg h2]
          exact ih s hfh heh

theorem attach_event_handler_ok (s1 : LoggerState) (e : String) (lv : Nat)
    (hsel : select_log_lev (pyLower s1.logging_level) = some lv) :
    ∃ t, attach_event_handler s1 e = (.ok (), t) ∧ t.is_logging_to_eventlog = true := by
  simp only [attach_event_handler]
  rw [configure_handler_some _ _ _ _ lv (by simpa using hsel)
    (append_ne_empty_of_right _ "_EVT" (by decide))]
  simp only [emitMeta, output_evtlog]
  exact ⟨_, rfl, by simp [addHandler]⟩

theorem switch_proceeds_on_benign_removal (env : Env) (s : LoggerState) (e : String)
    (lv : Nat)
    (hflag : s.is_logging_to_eventlog = false)
    (hsel : select_log_lev (pyLower s.logging_level) = some lv)
    (hres : (check_for_and_remove_handler_of_specified_type env s
        (s.handler_base_name ++ "_RFH") "rfh").1 = .ok .no_handlers_found
      ∨ (check_for_and_remove_handler_of_specified_type env s
        (s.handler_base_name ++ "_RFH") "rfh").1 = .ok .removal_success) :
    ∃ t, switch_to_eventlog env s e = (.ok (), t)
      ∧ t.is_logging_to_eventlog = true := by
  have hb : ¬ s.is_logging_to_eventlog = true := by
    rw [hflag]
    decide
  have hframe := check_for_and_remove_frame env s (s.handler_base_name ++ "_RFH") "rfh"
  simp only [switch_to_eventlog]
  rw [if_neg hb]
  rcases hr : check_for_and_remove_handler_of_specified_type env s
      (s.handler_base_name ++ "_RFH") "rfh" with ⟨r1, t1⟩
  rw [hr] at hres hframe
  have hsel1 : select_log_lev (pyLower t1.logging_level) = some lv := by
    rw [hframe.2.2.1]
    exact hsel
  rcases hres with hres | hres
  all_goals (simp only at hres; subst hres; simp only)
  · exact attach_event_handler_ok t1 e lv hsel1
  · exact attach_event_handler_ok t1 e lv hsel1

end RemovalStatus

/-- C5: a handler-removal attempt that reports failure (status removal_failed,
only possible when the underlying detach raises) is fatal, and nothing else is:
in either switch method, the process is terminated through sys.exit (a string
argument, hence a non-zero failure status) if and only if the method ran its
removal attempt (it was not a no-op for the current backend) and that attempt
reported removal_failed; and on that fatal path exactly one blocking alert
dialog (error_popup) is shown and no further records are written — the meta-log
and event-log are exactly as the removal attempt left them.  The hypotheses
provide the handler attributes referenced by the sys.exit message, which are
set in every state that can report removal_failed. -/
theorem c5_fatal_escalation_iff (env : Env) (s : LoggerState) (e : String)
    (fh eh : Handler) (hfh : s.file_handler = some fh) (heh : s.event_handler = some eh) :
    (((switch_to_eventlog env s e).1).isExit = true ↔
       s.is_logging_to_eventlog = false
         ∧ (check_for_and_remove_handler_of_specified_type env s
             (s.handler_base_name ++ "_RFH") "rfh").1 = .ok .removal_failed)
    ∧ (((switch_to_file env s).1).isExit = true ↔
       s.is_logging_to_eventlog = true
         ∧ (check_for_and_remove_handler_of_specified_type env s
             (s.handler_base_name ++ "_EVT") "evt").1 = .ok .removal_failed)
    ∧ (((switch_to_eventlog env s e).1).isExit = true →
        (switch_to_eventlog env s e).2.popups
            = s.popups ++ [("File copy logging failure", fatal_popup_message)]
          ∧ (switch_to_eventlog env s e).2.metaLog
              = (check_for_and_remove_handler_of_specified_type env s
                  (s.handler_base_name ++ "_RFH") "rfh").2.metaLog
          ∧ (switch_to_eventlog env s e).2.evtLog
              = (check_for_and_remove_handler_of_specified_type env s
                  (s.handler_base_name ++ "_RFH") "rfh").2.evtLog)
    ∧ (((switch_to_file env s).1).isExit = true →
        (switch_to_file env s).2.popups
            = s.popups ++ [("File copy logging failure", fatal_popup_message)]
          ∧ (switch_to_file env s).2.metaLog
              = (check_for_and_remove_handler_of_specified_type env s
                  (s.handler_base_name ++ "_EVT") "evt").2.metaLog
          ∧ (switch_to_file env s).2.evtLog
              = (check_for_and_remove_handler_of_specified_type env s
                  (s.handler_base_name ++ "_EVT") "evt").2.evtLog) :=
  ⟨(switch_to_eventlog_fatal_iff env s e fh hfh).1,
   (switch_to_file_fatal_iff env s eh heh).1,
   (switch_to_eventlog_fatal_iff env s e fh hfh).2,
   (switch_to_file_fatal_iff env s eh heh).2⟩

theorem c5_fatal_escalation_iff_witness :
    ((switch_to_eventlog envDetachFail
        { removalFailedState with event_handler := some ⟨9, "prev_EVT", HandlerKind.EVT, 30⟩ }
        "E").1).isExit = true :=
  ((c5_fatal_escalation_iff envDetachFail
      { removalFailedState with event_handler := some ⟨9, "prev_EVT", HandlerKind.EVT, 30⟩ }
      "E" ⟨0, "myapp_RFH", HandlerKind.RFH, 30⟩ ⟨9, "prev_EVT", HandlerKind.EVT, 30⟩
      rfl rfl).1).mpr (by decide)

/-- C6: invoking the transition-to-event-sink operation while the session is
already EVENT_ACTIVE returns with the state untouched (no handler attach or
detach, no emitted record, no popup), and symmetrically the transition-to-file
operation while already FILE_ACTIVE returns with the state untouched: switching
to the state already in effect is an idempotent no-op. -/
theorem c6_switch_idempotent_noop (env : Env) (s t : LoggerState) (e : String)
    (hs : s.is_logging_to_eventlog = true) (ht : t.is_logging_to_eventlog = false) :
    switch_to_eventlog env s e = (.ok (), s) ∧ switch_to_file env t = (.ok (), t) :=
  ⟨switch_to_eventlog_noop env s e hs, switch_to_file_noop env t ht⟩

theorem c6_switch_idempotent_noop_witness :
    switch_to_eventlog envAllOK eventActiveState "some error"
        = (.ok (), eventActiveState)
      ∧ switch_to_file envAllOK fileActiveState = (.ok (), fileActiveState) :=
  c6_switch_idempotent_noop envAllOK eventActiveState fileActiveState "some error"
    (by decide) (by decide)

/-- C10: for every level string that is not an attribute of the underlying
logger (not one of the logging methods and not one of the other Logger
attributes), log(level, message) raises AttributeError to the caller; the raise
happens after the pre-emit probe, the resulting state is exactly the
post-pre-probe state (so any backend switch triggered by that probe persists),
no record for the call is emitted, and the post-emit probe is skipped (only one
probe outcome is consumed). -/
theorem c10_unknown_level_attribute_error (env : Env) (s : LoggerState)
    (level message : String)
    (hlv : logger_method_level level = none)
    (hattr : level ∉ logger_other_attributes)
    (hpre : (check_file_access env s).1 = Outcome.ok ()) :
    log env s level message
        = (.exn (.attributeError level), (check_file_access env s).2)
      ∧ ((check_file_access env s).2).probeCount = s.probeCount + 1 := by
  refine ⟨?_, check_file_access_probeCount env s⟩
  unfold log
  rcases hc : check_file_access env s with ⟨o1, s1⟩
  rw [hc] at hpre
  simp only at hpre
  subst hpre
  simp only [getattr_call, hlv]
  rw [if_neg hattr]

theorem fileActiveState_inv : Inv fileActiveState :=
  ⟨⟨[], [⟨0, "myapp_RFH", HandlerKind.RFH, 30⟩], by decide, Or.inl rfl,
    Or.inr (Or.inl ⟨⟨0, "myapp_RFH", HandlerKind.RFH, 30⟩, rfl, rfl, by decide,
      by decide, by decide⟩),
    by decide⟩,
   by decide, ⟨30, by decide⟩⟩

theorem eventActiveState_inv : Inv eventActiveState :=
  ⟨⟨[], [⟨1, "myapp_EVT", HandlerKind.EVT, 30⟩], by decide, Or.inl rfl,
    Or.inr (Or.inr ⟨⟨1, "myapp_EVT", HandlerKind.EVT, 30⟩, rfl, rfl, by decide,
      by decide, by decide⟩),
    by decide⟩,
   by decide, ⟨30, by decide⟩⟩

/-- C8: the handler-removal method (src 167-217) returns no_handlers_found
exactly when no attached handler matches the requested name together with the
handler class checked for it (RotatingFileHandler or NTEventLogHandler); when
both handler attributes referenced inside the try-block are set, it returns
removal_failed only when the underlying detach raised; and the caller
_switch_to_eventlog treats no_handlers_found the same as removal_success,
proceeding with the switch to the event backend (src 256-282). -/
theorem c8_removal_status_characterisation (env : Env) (s : LoggerState)
    (nm ty : String) (fh eh : Handler) (lv : Nat) (e : String)
    (hfh : s.file_handler = some fh) (heh : s.event_handler = some eh)
    (hsel : select_log_lev (pyLower s.logging_level) = some lv)
    (hflag : s.is_logging_to_eventlog = false) :
    ((check_for_and_remove_handler_of_specified_type env s nm ty).1
        = .ok .no_handlers_found
      ↔ ∀ h ∈ s.handlers, ¬((h.kind = HandlerKind.RFH ∧ h.name = nm)
          ∨ (h.kind = HandlerKind.EVT ∧ h.name = nm)))
    ∧ ((check_for_and_remove_handler_of_specified_type env s nm ty).1
        = .ok .removal_failed → ∃ err, env.detach s.detachCount = Except.error err)
    ∧ ((check_for_and_remove_handler_of_specified_type env s
          (s.handler_base_name ++ "_RFH") "rfh").1 = .ok .no_handlers_found
        ∨ (check_for_and_remove_handler_of_specified_type env s
          (s.handler_base_name ++ "_RFH") "rfh").1 = .ok .removal_success →
        ∃ t, switch_to_eventlog env s e = (.ok (), t)
          ∧ t.is_logging_to_eventlog = true) := by
  refine ⟨?_, ?_, ?_⟩
  · unfold check_for_and_remove_handler_of_specified_type
    exact remove_not_found_iff env nm ty s.handlers s
  · unfold check_for_and_remove_handler_of_specified_type
    exact remove_failed_implies_detach_error env nm ty fh eh s.handlers s hfh heh
  · intro hres
    exact switch_proceeds_on_benign_removal env s e lv hflag hsel hres

theorem c8_removal_status_characterisation_witness :
    (check_for_and_remove_handler_of_specified_type envAllOK c8State "zzz" "rfh").1
      = Outcome.ok RemoveResult.no_handlers_found :=
  ((c8_removal_status_characterisation envAllOK c8State "zzz" "rfh"
      ⟨0, "myapp_RFH", HandlerKind.RFH, 30⟩ ⟨3, "old_EVT", HandlerKind.EVT, 30⟩ 30 "E"
      (by decide) (by decide) (by decide) (by decide)).1).mpr (by decide)

/-- C3 (amended): when an EVENT_ACTIVE session successfully reconstructs the
rotating file sink, the switch emits exactly two meta-log records — a DEBUG
(10) removal diagnostic and one resumption record — and exactly one OS
event-log record; against the spec sentence, the resumption meta record is at
WARNING (30), because src 359 calls self.logger.warning, and the ReportEvent
call of src 341-348 passes EVENTLOG_INFORMATION_TYPE into the eventIDIn slot,
so the eventType severity submitted to Windows is the literal 0, not
INFORMATION. -/
theorem c3_resumption_record_severity (env : Env) (s : LoggerState)
    (hd : detachOK env) (hInv : Inv s) (hf : s.is_logging_to_eventlog = true)
    (hctor : env.rfhCtor s.rfhCount = Except.ok ()) :
    ∃ (d resume : MetaRecord) (evt : EvtRecord),
      (switch_to_file env s).1 = .ok ()
      ∧ ((switch_to_file env s).2).is_logging_to_eventlog = false
      ∧ ((switch_to_file env s).2).metaLog = s.metaLog ++ [d, resume]
      ∧ ((switch_to_file env s).2).evtLog = s.evtLog ++ [evt]
      ∧ d.level = 10
      ∧ resume.level = 30
      ∧ resume.msg = "Resuming logging to rolling log file.\nCheck "
          ++ s.log_file_path_and_file_handler_filename ++ " for further log data."
      ∧ evt.eventID = EVENTLOG_INFORMATION_TYPE
      ∧ evt.eventType = 0 := by
  obtain ⟨pre, d, dc, hrm, lv, hsel, hpre, hid, hd10, heq⟩ :=
    switch_to_file_spec env s hd hInv hf hctor
  refine ⟨d, ⟨30, "Resuming logging to rolling log file.\nCheck "
      ++ s.log_file_path_and_file_handler_filename ++ " for further log data.",
      pre ++ [⟨s.nextId, s.handler_base_name ++ "_RFH", HandlerKind.RFH, lv⟩]⟩,
    ⟨s.event_source, EVENTLOG_INFORMATION_TYPE, 0, 0,
      ["Resuming logging to rolling log file.",
       "Check " ++ s.log_file_path_and_file_handler_filename ++ " for further log data."],
      "Resuming\x00logging\x00to\x00rolling\x00log\x00file."⟩,
    ?_, ?_, ?_, ?_, hd10, rfl, rfl, rfl, rfl⟩ <;> (rw [heq]; try rfl)

theorem c3_resumption_record_severity_witness :
    ∃ (d resume : MetaRecord) (evt : EvtRecord),
      (switch_to_file envAllOK eventActiveState).1 = .ok ()
      ∧ ((switch_to_file envAllOK eventActiveState).2).is_logging_to_eventlog = false
      ∧ ((switch_to_file envAllOK eventActiveState).2).metaLog
          = eventActiveState.metaLog ++ [d, resume]
      ∧ ((switch_to_file envAllOK eventActiveState).2).evtLog
          = eventActiveState.evtLog ++ [evt]
      ∧ d.level = 10
      ∧ resume.level = 30
      ∧ resume.msg = "Resuming logging to rolling log file.\nCheck "
          ++ eventActiveState.log_file_path_and_file_handler_filename
          ++ " for further log data."
      ∧ evt.eventID = EVENTLOG_INFORMATION_TYPE
      ∧ evt.eventType = 0 :=
  c3_resumption_record_severity envAllOK eventActiveState (fun _ => rfl)
    eventActiveState_inv (by decide) rfl

theorem c3_counterexample :
    ((log envC3 initC3 "info" "m").2).metaLog.get? 3
        = some ⟨30,
            "Resuming logging to rolling log file.\nCheck D:/logs/app.log for further log data.",
            [⟨1, "myapp_RFH", HandlerKind.RFH, 30⟩]⟩
      ∧ ((log envC3 initC3 "info" "m").2).metaLog.map (fun r => r.level)
          = [10, 30, 10, 30, 20]
      ∧ ((log envC3 initC3 "info" "m").2).evtLog.map
            (fun r => (r.eventID, r.eventType))
          = [(EVENTLOG_ERROR_TYPE, 0), (EVENTLOG_INFORMATION_TYPE, 0)] := by
  decide

/-- C4 (amended): on every FILE_ACTIVE to EVENT_ACTIVE transition the session
emits two meta-log records (a DEBUG removal diagnostic and the switch record at
WARNING 30) and one OS event-log record; the event-log record's strings do
carry the triggering error text and the affected path, but its eventType
severity argument is the literal 0 (EVENTLOG_ERROR_TYPE lands in the eventIDIn
slot, src 276-282), and the meta record's text is the fixed literal of src 269
— a non-f-string whose brace placeholders stay verbatim, so the error text and
path are not interpolated into it. -/
theorem c4_switch_notification_content (env : Env) (s : LoggerState) (e : String)
    (hd : detachOK env) (hInv : Inv s) (hf : s.is_logging_to_eventlog = false) :
    ∃ (d sw : MetaRecord) (evt : EvtRecord),
      (switch_to_eventlog env s e).1 = .ok ()
      ∧ ((switch_to_eventlog env s e).2).is_logging_to_eventlog = true
      ∧ ((switch_to_eventlog env s e).2).metaLog = s.metaLog ++ [d, sw]
      ∧ ((switch_to_eventlog env s e).2).evtLog = s.evtLog ++ [evt]
      ∧ d.level = 10
      ∧ sw.level = 30
      ∧ sw.msg = switch_meta_message
      ∧ evt.eventID = EVENTLOG_ERROR_TYPE
      ∧ evt.eventType = 0
      ∧ ("Thefollowing error was recorded: " ++ e) ∈ evt.strings
      ∧ ("Check access and permissions are available to script operating functional user at: "
          ++ s.log_file_path_and_file_handler_filename) ∈ evt.strings := by
  obtain ⟨pre, d, dc, hrm, lv, hsel, hpre, hid, hd10, heq⟩ :=
    switch_to_eventlog_spec env s e hd hInv hf
  refine ⟨d, ⟨30, switch_meta_message,
      pre ++ [⟨s.nextId, s.handler_base_name ++ "_EVT", HandlerKind.EVT, lv⟩]⟩,
    ⟨s.event_source, EVENTLOG_ERROR_TYPE, 0, 0,
      ["Failed to access rolling log file. Switching to Windows event logging.",
       "Check access and permissions are available to script operating functional user at: "
         ++ s.log_file_path_and_file_handler_filename,
       "Thefollowing error was recorded: " ++ e],
      "Failed\x00to\x00access\x00rolling\x00log\x00file.\x00Logging\x00to\x00event\x00log\x00instead."⟩,
    ?_, ?_, ?_, ?_, hd10, rfl, rfl, rfl, rfl, by simp, by simp⟩ <;> (rw [heq]; try rfl)

theorem c4_switch_notification_content_witness :
    ∃ (d sw : MetaRecord) (evt : EvtRecord),
      (switch_to_eventlog envAllOK fileActiveState "boom").1 = .ok ()
      ∧ ((switch_to_eventlog envAllOK fileActiveState "boom").2).is_logging_to_eventlog = true
      ∧ ((switch_to_eventlog envAllOK fileActiveState "boom").2).metaLog
          = fileActiveState.metaLog ++ [d, sw]
      ∧ ((switch_to_eventlog envAllOK fileActiveState "boom").2).evtLog
          = fileActiveState.evtLog ++ [evt]
      ∧ d.level = 10
      ∧ sw.level = 30
      ∧ sw.msg = switch_meta_message
      ∧ evt.eventID = EVENTLOG_ERROR_TYPE
      ∧ evt.eventType = 0
      ∧ ("Thefollowing error was recorded: " ++ "boom") ∈ evt.strings
      ∧ ("Check access and permissions are available to script operating functional user at: "
          ++ fileActiveState.log_file_path_and_file_handler_filename) ∈ evt.strings :=
  c4_switch_notification_content envAllOK fileActiveState "boom" (fun _ => rfl)
    fileActiveState_inv (by decide)

theorem c4_counterexample :
    envC4.probe 0 = Except.error "boom"
      ∧ initC4.log_file_path_and_file_handler_filename = "D:/logs/app.log"
      ∧ ((log envC4 initC4 "info" "m").2).metaLog.get? 1
          = some ⟨30, switch_meta_message, [⟨1, "myapp_EVT", HandlerKind.EVT, 30⟩]⟩
      ∧ ¬ ("boom".data <:+: switch_meta_message.data)
      ∧ ¬ ("D:/logs/app.log".data <:+: switch_meta_message.data) :=
  ⟨rfl, by decide⟩

/-- C1: the consistency between the backend flag and the attached handler kind
is not an invariant of the code.  Failing input: a FILE_ACTIVE session whose
pre-emit probe fails once (switching to the event backend) and whose post-emit
probe then succeeds while the RotatingFileHandler reconstruction raises.
_switch_to_file (src 307-332) has already detached the event handler and its
except-branch calls _switch_to_eventlog, which returns immediately at src
244-246 because self.is_logging_to_eventlog is still True — so the call returns
normally in a state that is EVENT_ACTIVE with no handler attached at all,
instead of re-entering the failover path and re-attaching an event handler as
the spec demands. -/
theorem c1_event_active_without_event_handler :
    (log envC1 initC1 "info" "m1").1 = Outcome.ok ()
      ∧ ((log envC1 initC1 "info" "m1").2).is_logging_to_eventlog = true
      ∧ ((log envC1 initC1 "info" "m1").2).handlers = [] := by
  decide

/-- C7 (amended): a call log(level, message) whose level names a logging method
runs the file-availability probe once before and once after emitting the record
(the final probe counter is the initial one plus two), and when the probe
before a FILE_ACTIVE call fails, the backend is switched before the record is
emitted: at emission time the flag is EVENT_ACTIVE, an event-log handler is
attached and no rotating-file handler is.  (The spec's unconditional
consequence — unavailable before the call implies served by the event sink —
additionally needs the session not to be in the handlerless EVENT_ACTIVE state
of C1; the counterexample trace emits a record with no handler attached.) -/
theorem c7_probe_each_call_and_event_sink (env : Env) (s : LoggerState)
    (level message e : String) (n : Nat)
    (hd : detachOK env) (hInv : Inv s) (hf : s.is_logging_to_eventlog = false)
    (hprobe : env.probe s.probeCount = Except.error e)
    (hlv : logger_method_level level = some n) :
    ∃ s1 : LoggerState,
      (check_file_access env s).1 = .ok ()
      ∧ (check_file_access env s).2 = s1
      ∧ s1.is_logging_to_eventlog = true
      ∧ (∃ h ∈ s1.handlers, h.kind = HandlerKind.EVT)
      ∧ (∀ h ∈ s1.handlers, h.kind ≠ HandlerKind.RFH)
      ∧ (⟨n, message, s1.handlers⟩ : MetaRecord) ∈ ((log env s level message).2).metaLog
      ∧ ((log env s level message).2).probeCount = s.probeCount + 2 := by
  have hb : check_file_access env s
      = switch_to_eventlog env { s with probeCount := s.probeCount + 1 } e := by
    simp only [check_file_access, hprobe]
  have hInv1 : Inv { s with probeCount := s.probeCount + 1 } :=
    inv_probeBump s (s.probeCount + 1) hInv
  obtain ⟨pre, d, dc, hrm, lv, hsel, hpreStr, hid, hd10, heq⟩ :=
    switch_to_eventlog_spec env { s with probeCount := s.probeCount + 1 } e hd hInv1 hf
  have h1 : (check_file_access env s).1 = .ok () := by
    rw [hb, heq]
  have hlog : log env s level message
      = check_file_access env (emitMeta ((check_file_access env s).2) n message) := by
    simp only [log, h1, getattr_call, hlv]
  refine ⟨(check_file_access env s).2, h1, rfl, ?_, ?_, ?_, ?_, ?_⟩
  · rw [hb, heq]
  · rw [hb, heq]
    exact ⟨_, List.mem_append_right _ (List.mem_singleton_self _), rfl⟩
  · rw [hb, heq]
    intro x hx
    rcases List.mem_append.mp hx with hx | hx
    · rw [strPart_kinds pre hpreStr x hx]
      decide
    · rcases List.mem_singleton.mp hx with rfl
      exact fun hk => HandlerKind.noConfusion hk
  · rw [hlog]
    exact (check_file_access_metaLog_mono env _).subset (by simp [emitMeta])
  · rw [hlog, check_file_access_probeCount]
    have hpe : (emitMeta ((check_file_access env s).2) n message).probeCount
        = ((check_file_access env s).2).probeCount := rfl
    rw [hpe, check_file_access_probeCount]

theorem c7_probe_each_call_and_event_sink_witness :
    ∃ s1 : LoggerState,
      (check_file_access envC4 fileActiveState).1 = .ok ()
      ∧ (check_file_access envC4 fileActiveState).2 = s1
      ∧ s1.is_logging_to_eventlog = true
      ∧ (∃ h ∈ s1.handlers, h.kind = HandlerKind.EVT)
      ∧ (∀ h ∈ s1.handlers, h.kind ≠ HandlerKind.RFH)
      ∧ (⟨20, "m", s1.handlers⟩ : MetaRecord)
          ∈ ((log envC4 fileActiveState "info" "m").2).metaLog
      ∧ ((log envC4 fileActiveState "info" "m").2).probeCount
          = fileActiveState.probeCount + 2 :=
  c7_probe_each_call_and_event_sink envC4 fileActiveState "info" "m" "boom" 20
    (fun _ => rfl) fileActiveState_inv (by decide) rfl (by decide)

theorem c7_counterexample :
    (runCalls envC7 initC7 [("info", "m1"), ("info", "m2")]).1 = Outcome.ok ()
      ∧ envC7.probe 2 = Except.error "E2"
      ∧ ((runCalls envC7 initC7 [("info", "m1"), ("info", "m2")]).2).metaLog.getLast?
          = some ⟨20, "m2", []⟩ :=
  ⟨by decide, rfl, by decide⟩

/-- C9: when the target log file does not exist but its directory is reachable
and permits creation, the append-mode open performed by the probe of
_check_file_access (src 228) creates an empty file at the target path as a side
effect, the probe counts as success (the call is routed to _switch_to_file, so
the session selects or stays in the file backend, ending FILE_ACTIVE), and on a
session already FILE_ACTIVE the switch is the no-op of src 303-305: the probe
is not free of filesystem effects. -/
theorem c9_append_probe_creates_file (env : Env) (s : LoggerState) (fs : FS)
    (hd : detachOK env) (hInv : Inv s)
    (hne : fs.fileExists = false) (hdir : fs.dirExists = true) (hcr : fs.canCreate = true)
    (hctor : env.rfhCtor s.rfhCount = Except.ok ()) :
    openAppend fs = Except.ok { fs with fileExists := true }
    ∧ (check_file_access_fs env s fs).2 = { fs with fileExists := true }
    ∧ (check_file_access_fs env s fs).1 = switch_to_file env s
    ∧ ((((check_file_access_fs env s fs).1).2)).is_logging_to_eventlog = false
    ∧ (s.is_logging_to_eventlog = false →
        (check_file_access_fs env s fs).1 = (.ok (), s)) := by
  have hopen : openAppend fs = Except.ok { fs with fileExists := true } := by
    simp [openAppend, hne, hdir, hcr]
  have hflagRes : ((switch_to_file env s).2).is_logging_to_eventlog = false := by
    by_cases hflag : s.is_logging_to_eventlog = false
    · rw [switch_to_file_noop env s hflag]
      exact hflag
    · have hf' : s.is_logging_to_eventlog = true := by
        cases hflag2 : s.is_logging_to_eventlog
        · exact absurd hflag2 hflag
        · rfl
      obtain ⟨pre, d, dc, hrm, lv, hsel, hpre, hid, hd10, heq⟩ :=
        switch_to_file_spec env s hd hInv hf' hctor
      rw [heq]
  refine ⟨hopen, ?_, ?_, ?_, ?_⟩
  · simp only [check_file_access_fs, hopen]
  · simp only [check_file_access_fs, hopen]
  · simp only [check_file_access_fs, hopen]
    exact hflagRes
  · intro hflag
    simp only [check_file_access_fs, hopen]
    exact switch_to_file_noop env s hflag

theorem c9_append_probe_creates_file_witness :
    (check_file_access_fs envAllOK fileActiveState
        ⟨true, false, true, true⟩).2 = (⟨true, true, true, true⟩ : FS) :=
  (c9_append_probe_creates_file envAllOK fileActiveState ⟨true, false, true, true⟩
    (fun _ => rfl) fileActiveState_inv rfl rfl rfl rfl).2.1

theorem c10_unknown_level_attribute_error_witness :
    log envAllOK baseState "verbose" "m"
        = (.exn (.attributeError "verbose"), (check_file_access envAllOK baseState).2)
      ∧ ((check_file_access envAllOK baseState).2).probeCount = baseState.probeCount + 1 :=
  c10_unknown_level_attribute_error envAllOK baseState "verbose" "m"
    (by decide) (by decide) (by decide)

end Pylogger
